import Mathlib

/-!
Verification of the BOX-BOX F1 race-simulation engine.

The definitions below are a shallow embedding of the simulation core
(`backend/app/simulation/engine.py`, `physics.py`, `rng.py`).  Machine
floats are modelled as exact rationals (`ℚ`); Python's `float('inf')`
(used only for time gaps) is modelled by the two-constructor type
`QInf`.  The seeded RNG is modelled as an abstract stream of
`random()` draws together with a cursor; every consumer threads the
RNG state explicitly, consuming draws in exactly the order the Python
code does.

The structured car/state record shapes (`CarIdentity`, `CarTelemetry`,
`CarSystems`, `CarStrategy`, `CarTiming`, `RaceControl`, the event
`payload`) are used throughout the engine and its tests but the module
that declares them is not part of the source snapshot (the snapshot's
`models/race_state.py` is an older flat version that the engine no
longer matches).  Those record shapes are therefore modelled from the
spec (§3 DATA MODEL), which agrees with every field access the engine
performs.
-/

namespace BoxBox

/-- Tire compounds available during a race. -/
inductive TireCompound
  | SOFT | MEDIUM | HARD | INTERMEDIATE | WET
deriving DecidableEq, Repr

/-- Car status during a race. -/
inductive CarStatus
  | RACING | PITTED | DNF
deriving DecidableEq, Repr

/-- Track sector classification. -/
inductive SectorType
  | SLOW | MEDIUM | FAST
deriving DecidableEq, Repr

/-- Driver strategy mode. -/
inductive DrivingMode
  | PUSH | BALANCED | CONSERVE
deriving DecidableEq, Repr

/-- Modelled from the spec: race-control states (§3): mutually exclusive
enum GREEN / YELLOW / VSC / SAFETY_CAR / RED_FLAG. -/
inductive RaceControl
  | GREEN | YELLOW | VSC | SAFETY_CAR | RED_FLAG
deriving DecidableEq, Repr

/-- Event kinds emitted by the engine (closed set, spec §3). -/
inductive EventType
  | SAFETY_CAR | VIRTUAL_SAFETY_CAR | RED_FLAG | YELLOW_FLAG | GREEN_FLAG
  | PIT_STOP | PIT_OUT | PIT_IN | OVERTAKE | DNF | FASTEST_LAP | MODE_CHANGE
  | WEATHER_CHANGE | LAP_COMPLETE
deriving DecidableEq, Repr

/-- Python's `float('inf')` as used for time gaps: either a finite
rational or positive infinity. -/
inductive QInf
  | fin (q : ℚ)
  | inf
deriving DecidableEq, Repr

/-- `g < q` for a possibly-infinite gap (infinity is less than nothing). -/
def QInf.ltc (g : QInf) (q : ℚ) : Bool :=
  match g with
  | .fin x => decide (x < q)
  | .inf => false

/-- `g > q` for a possibly-infinite gap (infinity exceeds everything). -/
def QInf.gtc (g : QInf) (q : ℚ) : Bool :=
  match g with
  | .fin x => decide (q < x)
  | .inf => true

/-- Tire state during a race. -/
structure TireState where
  compound : TireCompound
  age : Nat
  wear : ℚ
deriving DecidableEq, Repr

/-- Track weather conditions. -/
structure Weather where
  rain_probability : ℚ
  temperature : ℚ
  wind_speed : ℚ
deriving DecidableEq, Repr

/-- DRS activation zone on the track (`start`/`end` lap-progress bounds;
`end` is a Lean keyword so the field is named `stop`). -/
structure DRSZone where
  start : ℚ
  stop : ℚ
deriving DecidableEq, Repr

/-- A section of the track. -/
structure Sector where
  sector_type : SectorType
  length : ℚ
deriving DecidableEq, Repr

/-- The circuit where the race is happening (fields the engine reads). -/
structure Track where
  length : ℚ
  sectors : List Sector
  weather : Weather
  drs_zones : List DRSZone
deriving DecidableEq, Repr

/-- Simulation metadata for replay and determinism. -/
structure Meta where
  seed : Int
  tick : Nat
  timestamp : Nat
  laps_total : Nat
deriving DecidableEq, Repr

/-- Modelled from the spec: `Car.identity` sub-record (§3). -/
structure CarIdentity where
  driver : String
  team : String
deriving DecidableEq, Repr

/-- Modelled from the spec: `Car.telemetry` sub-record (§3). -/
structure CarTelemetry where
  speed : ℚ
  fuel : ℚ
  lap_progress : ℚ
  tire_state : TireState
  dirty_air_effect : ℚ
deriving DecidableEq, Repr

/-- Modelled from the spec: `Car.systems` sub-record (§3). -/
structure CarSystems where
  drs_active : Bool := false
  ers_battery : ℚ := 4
  ers_deployed : Bool := false
deriving DecidableEq, Repr

/-- Modelled from the spec: `Car.strategy` sub-record (§3).
`CarStrategy()` with no arguments (as the engine writes it) is the
default BALANCED / no-command value. -/
structure CarStrategy where
  driving_mode : DrivingMode := .BALANCED
  active_command : Option String := none
deriving DecidableEq, Repr

/-- Modelled from the spec: `Car.timing` sub-record (§3).  The gap
fields hold `none` for the leader and a possibly-infinite number of
seconds otherwise. -/
structure CarTiming where
  position : Nat
  lap : Nat
  sector : Nat
  gap_to_leader : Option QInf := none
  interval : Option QInf := none
  last_lap_time : Option ℚ := none
  best_lap_time : Option ℚ := none
  lap_start_tick : Nat := 0
deriving DecidableEq, Repr

/-- Complete state of a car during a race. -/
structure Car where
  identity : CarIdentity
  telemetry : CarTelemetry
  systems : CarSystems
  strategy : CarStrategy
  timing : CarTiming
  pit_stops : Nat
  status : CarStatus
  driver_skill : ℚ
  in_pit_lane : Bool := false
  pit_lane_progress : ℚ := 0
deriving DecidableEq, Repr

/-- Modelled from the spec: the statically-shaped event payload (§3, §9):
each event kind carries its own payload record. -/
inductive EventPayload
  | empty
  | rainProb (p : ℚ)
  | dnfReason (reason : String)
  | scCause (driver : String)
  | lapComplete (lap_time : ℚ) (compound : TireCompound) (wear fuel : ℚ)
  | overtake (overtaker overtaken : String) (position : Nat)
  | fastestLap (time : ℚ)
  | pitCompound (compound : TireCompound)
deriving DecidableEq, Repr

/-- Event that occurred during the race.  Free-text `description`
strings elide Python's numeric formatting (display only). -/
structure Event where
  tick : Nat
  lap : Nat
  event_type : EventType
  driver : Option String := none
  payload : EventPayload := .empty
  description : String := ""
deriving DecidableEq, Repr

/-- Single source of truth for the entire race. -/
structure RaceState where
  meta : Meta
  track : Track
  cars : List Car
  events : List Event
  race_control : RaceControl
  drs_enabled : Bool
  sc_deploy_lap : Option Nat
deriving DecidableEq, Repr

/-!  ## Seeded RNG (`rng.py`)

`random.Random(seed)` is a deterministic pseudo-random stream; its
values are modelled as an abstract function `Nat → ℚ` (the successive
`random()` results, each in `[0,1)`) plus a cursor.  A generator
function `Int → Nat → ℚ` stands for the seeding algorithm: the stream
is a function of the seed alone. -/

/-- Wrapper around the seeded random stream with an explicit cursor. -/
structure SeededRNG where
  stream : Nat → ℚ
  idx : Nat

/-- Build the RNG of a given seed under a fixed generator `gen`
(modelling `random.Random(seed)`: the stream depends only on the seed). -/
def SeededRNG.ofSeed (gen : Int → Nat → ℚ) (seed : Int) : SeededRNG :=
  ⟨gen seed, 0⟩

/-- `random()`: return a float in `[0,1)` and advance the stream. -/
def SeededRNG.random (r : SeededRNG) : ℚ × SeededRNG :=
  (r.stream r.idx, ⟨r.stream, r.idx + 1⟩)

/-- `uniform(a, b) = a + (b-a) * random()`. -/
def SeededRNG.uniform (r : SeededRNG) (a b : ℚ) : ℚ × SeededRNG :=
  let (u, r1) := r.random
  (a + (b - a) * u, r1)

/-- `chance(p)`: true with probability `p` (`random() < p`). -/
def SeededRNG.chance (r : SeededRNG) (p : ℚ) : Bool × SeededRNG :=
  let (u, r1) := r.random
  (decide (u < p), r1)

/-!  ## Physics (`physics.py`) -/

/-- Tire degradation rates per tick, compound specific
(`TIRE_WEAR_RATES`; the dictionary lookup has default `0.001` but every
compound is a key, so the default is unreachable). -/
def TIRE_WEAR_RATES (compound : TireCompound) : ℚ :=
  match compound with
  | .SOFT => 0.00008
  | .MEDIUM => 0.00005
  | .HARD => 0.00003
  | .INTERMEDIATE => 0.00006
  | .WET => 0.00005

/-- Base speed by sector type in km/h (`BASE_SPEED`; total function, so
the Python `.get(..., 180)` default is unreachable). -/
def BASE_SPEED (sector_type : SectorType) : ℚ :=
  match sector_type with
  | .SLOW => 120
  | .MEDIUM => 180
  | .FAST => 280

/-- Fuel consumption per tick (kg). -/
def FUEL_CONSUMPTION_PER_TICK : ℚ := 0.005

/-- Max km/h lost at 100% tire wear. -/
def TIRE_WEAR_PENALTY : ℚ := 50

/-- km/h lost per kg of fuel. -/
def FUEL_WEIGHT_SPEED_PENALTY : ℚ := 0.03

/-- km/h extra speed when DRS is open. -/
def DRS_SPEED_BOOST : ℚ := 12

/-- Must be within 1 second of the car ahead to use DRS. -/
def DRS_ACTIVATION_GAP : ℚ := 1

/-- Seconds behind the car ahead to get slipstream. -/
def SLIPSTREAM_RANGE : ℚ := 0.5

/-- km/h maximum slipstream boost on straights. -/
def SLIPSTREAM_MAX_BOOST : ℚ := 6

/-- Reduced slipstream effect in corners. -/
def SLIPSTREAM_CORNER_FACTOR : ℚ := 0.3

/-- MJ total ERS capacity. -/
def ERS_MAX_BATTERY : ℚ := 4

/-- MJ consumed per tick when deploying ERS. -/
def ERS_DEPLOY_RATE : ℚ := 0.1

/-- MJ recovered per tick in braking zones. -/
def ERS_HARVEST_RATE : ℚ := 0.02

/-- km/h extra when deploying ERS. -/
def ERS_SPEED_BOOST : ℚ := 8

/-- Seconds behind the car ahead for dirty air. -/
def DIRTY_AIR_RANGE : ℚ := 2

/-- Up to 15% grip loss in corners from dirty air. -/
def DIRTY_AIR_CORNER_PENALTY : ℚ := 0.15

/-- Speed penalty factor from aerodynamic wake (0.1 means 10% slower). -/
def calculate_dirty_air_penalty (gap_to_car_ahead : QInf) (sector_type : SectorType) : ℚ :=
  if gap_to_car_ahead.gtc DIRTY_AIR_RANGE then 0
  else
    match gap_to_car_ahead with
    | .inf => 0
    | .fin g =>
      let proximity_factor : ℚ := 1 - g / DIRTY_AIR_RANGE
      let base_penalty := DIRTY_AIR_CORNER_PENALTY * proximity_factor
      match sector_type with
      | .SLOW => base_penalty
      | .MEDIUM => base_penalty * 0.8
      | .FAST => 0

/-- New tire wear after one tick (compound rate × variance × mode
multiplier, ×1.5 above half wear, capped at 1). -/
def calculate_tire_wear (current_wear : ℚ) (compound : TireCompound)
    (rng : SeededRNG) (driving_mode : DrivingMode) : ℚ × SeededRNG :=
  let base_wear := TIRE_WEAR_RATES compound
  let mode_multiplier : ℚ :=
    match driving_mode with
    | .PUSH => 1.25
    | .CONSERVE => 0.70
    | .BALANCED => 1
  let (variance, rng1) := rng.uniform 0.8 1.2
  let wear_increase := base_wear * variance * mode_multiplier
  let wear_increase := if current_wear > 0.5 then wear_increase * 1.5 else wear_increase
  let new_wear := current_wear + wear_increase
  (min new_wear 1, rng1)

/-- Weather grip modifier (dry / light rain / heavy rain). -/
def grip_modifier (rain_probability : ℚ) : ℚ :=
  if rain_probability > 0.7 then 0.70
  else if rain_probability > 0.3 then 0.85
  else 1

/-- Tire performance in wet conditions (`WET_TIRE_GRIP`). -/
def WET_TIRE_GRIP (compound : TireCompound) : ℚ :=
  match compound with
  | .SOFT => 0.6
  | .MEDIUM => 0.7
  | .HARD => 0.75
  | .INTERMEDIATE => 0.95
  | .WET => 1

/-- Current speed in km/h from conditions (`calculate_speed`). -/
def calculate_speed (base_sector_speed tire_wear fuel_kg driver_skill : ℚ)
    (rng : SeededRNG) (rain_probability : ℚ) (tire_compound : TireCompound)
    (driving_mode : DrivingMode) (dirty_air_penalty : ℚ) : ℚ × SeededRNG :=
  let speed := base_sector_speed
  let skill_bonus := (driver_skill - 0.90) * 100
  let speed := speed + skill_bonus
  let speed :=
    match driving_mode with
    | .PUSH => speed * 1.03
    | .CONSERVE => speed * 0.95
    | .BALANCED => speed
  let base_grip := grip_modifier rain_probability
  let grip :=
    if rain_probability > 0.3 then base_grip * WET_TIRE_GRIP tire_compound
    else base_grip
  let speed := speed * grip
  let speed := speed * (1 - dirty_air_penalty)
  let speed := speed - tire_wear * TIRE_WEAR_PENALTY
  let speed := speed - fuel_kg * FUEL_WEIGHT_SPEED_PENALTY
  let (variance, rng1) := rng.uniform 0.98 1.02
  let speed := speed * variance
  (max speed 50, rng1)

/-- Remaining fuel after one tick (floored at 0). -/
def calculate_fuel_consumption (current_fuel : ℚ) (driving_mode : DrivingMode) : ℚ :=
  let base_consumption := FUEL_CONSUMPTION_PER_TICK
  let base_consumption :=
    match driving_mode with
    | .PUSH => base_consumption * 1.15
    | .CONSERVE => base_consumption * 0.80
    | .BALANCED => base_consumption
  max (current_fuel - base_consumption) 0

/-- Whether the car is currently inside a DRS activation zone. -/
def is_in_drs_zone (lap_progress : ℚ) (drs_zones : List DRSZone) : Bool :=
  drs_zones.any fun zone => decide (zone.start ≤ lap_progress) && decide (lap_progress ≤ zone.stop)

/-- Whether a car can activate DRS. -/
def can_activate_drs (lap_progress : ℚ) (gap_to_car_ahead : QInf)
    (drs_zones : List DRSZone) (rain_probability : ℚ)
    (sc_active vsc_active : Bool) : Bool :=
  if sc_active || vsc_active then false
  else if rain_probability ≥ 0.3 then false
  else if gap_to_car_ahead.gtc DRS_ACTIVATION_GAP then false
  else is_in_drs_zone lap_progress drs_zones

/-- Speed boost if DRS is active. -/
def calculate_drs_boost (drs_active : Bool) : ℚ :=
  if drs_active then DRS_SPEED_BOOST else 0

/-- Speed boost in km/h from slipstream/drafting. -/
def calculate_slipstream_boost (gap_to_car_ahead : QInf) (sector_type : SectorType) : ℚ :=
  if gap_to_car_ahead.gtc SLIPSTREAM_RANGE then 0
  else
    match gap_to_car_ahead with
    | .inf => 0
    | .fin g =>
      let proximity_factor : ℚ := 1 - g / SLIPSTREAM_RANGE
      let base_boost := SLIPSTREAM_MAX_BOOST * proximity_factor
      match sector_type with
      | .SLOW => base_boost * SLIPSTREAM_CORNER_FACTOR
      | .MEDIUM => base_boost * 0.6
      | .FAST => base_boost

/-- ERS deployment: (new battery, speed boost, still deploying). -/
def calculate_ers_deployment (battery : ℚ) (sector_type : SectorType)
    (_deploying : Bool) : ℚ × ℚ × Bool :=
  let should_deploy := sector_type = .FAST ∧ battery > 0.2
  if should_deploy ∧ battery ≥ ERS_DEPLOY_RATE then
    (max 0 (battery - ERS_DEPLOY_RATE), ERS_SPEED_BOOST, true)
  else
    (battery, 0, false)

/-- Energy harvested during braking zones (SLOW sectors). -/
def calculate_ers_harvest (battery : ℚ) (sector_type : SectorType) : ℚ :=
  if sector_type = .SLOW then min (battery + ERS_HARVEST_RATE) ERS_MAX_BATTERY
  else battery

/-- Whether a car should yield for blue flags (leader at least one lap
ahead by lap counter). -/
def should_yield_for_blue_flag (car_lap leader_lap : Nat) : Bool :=
  decide (leader_lap > car_lap)

/-- Speed penalty when yielding for blue flags (10% reduction). -/
def calculate_blue_flag_penalty : ℚ := 0.10

/-!  ## Engine (`engine.py`) -/

/-- Per tick, per car mechanical-failure probability. -/
def MECHANICAL_FAILURE_PROBABILITY : ℚ := 0.000005

/-- Base per-tick crash probability. -/
def CRASH_PROBABILITY_BASE : ℚ := 0.000003

/-- Per-tick crash probability with badly worn tires. -/
def CRASH_PROBABILITY_WORN_TIRES : ℚ := 0.00001

/-- Safety-car speed cap in km/h. -/
def SC_SPEED : ℚ := 60

/-- The safety car lasts approximately this many leader laps. -/
def SC_LAPS_DURATION : Nat := 3

/-- VSC speed reduction (40%). -/
def VSC_SPEED_REDUCTION : ℚ := 0.40

/-- Chance per tick for the weather to drift. -/
def WEATHER_DRIFT_CHANCE : ℚ := 0.10

/-- Rain-probability drift amplitude per drift step. -/
def RAIN_DRIFT_AMOUNT : ℚ := 0.002

/-- Temperature drift amplitude per drift step. -/
def TEMP_DRIFT_AMOUNT : ℚ := 0.05

/-- Python's `round(x, n)` on the exact rational model (round to `n`
decimal places; Python's bankers tie-break differs only at exact
half-way ties, which carry no weight here). -/
def pyRound (x : ℚ) (n : Nat) : ℚ :=
  ((round (x * 10 ^ n) : ℤ) : ℚ) / 10 ^ n

/-- Inner loop of `calculate_sector`: first sector whose cumulative
boundary exceeds the lap progress. -/
def calculate_sector_loop (lap_progress total cumulative : ℚ) (i : Nat) :
    List Sector → Option Nat
  | [] => none
  | s :: rest =>
    let cumulative := cumulative + s.length
    if lap_progress < cumulative / total then some i
    else calculate_sector_loop lap_progress total cumulative (i + 1) rest

/-- Which sector (0, 1, 2) the given lap progress falls in. -/
def calculate_sector (lap_progress : ℚ) (track : Track) : Nat :=
  (calculate_sector_loop lap_progress track.length 0 0 track.sectors).getD
    (track.sectors.length - 1)

/-- Create a DNF car and its event. -/
def create_dnf (car : Car) (tick : Nat) (reason : String) : Car × Event :=
  let dnf_car : Car :=
    { car with
      telemetry := { car.telemetry with speed := 0, dirty_air_effect := 0 }
      systems := { car.systems with drs_active := false, ers_deployed := false }
      strategy := {}
      status := .DNF }
  let event : Event :=
    { tick := tick
      lap := car.timing.lap
      event_type := .DNF
      driver := some car.identity.driver
      payload := .dnfReason reason
      description := car.identity.driver ++ " DNF - " ++ reason }
  (dnf_car, event)

/-- Check whether the car DNFs this tick (mechanical failure or crash). -/
def check_for_dnf (car : Car) (rng : SeededRNG) (tick : Nat) :
    (Car × Option Event) × SeededRNG :=
  let (mech, rng1) := rng.chance MECHANICAL_FAILURE_PROBABILITY
  if mech then
    let (c, e) := create_dnf car tick "Mechanical failure"
    ((c, some e), rng1)
  else
    let crash_prob :=
      if car.telemetry.tire_state.wear > 0.8 then CRASH_PROBABILITY_WORN_TIRES
      else CRASH_PROBABILITY_BASE
    let (crash, rng2) := rng1.chance crash_prob
    if crash then
      let (c, e) := create_dnf car tick "Crashed"
      ((c, some e), rng2)
    else ((car, none), rng2)

/-- Time gap in seconds to the car ahead (`inf` if there is none or it
is not strictly ahead in total distance). -/
def calculate_gap_to_car_ahead (car : Car) (car_ahead : Option Car)
    (track_length : ℚ) : QInf :=
  match car_ahead with
  | none => .inf
  | some ahead =>
    let car_distance := car.timing.lap * track_length +
      car.telemetry.lap_progress * track_length
    let ahead_distance := ahead.timing.lap * track_length +
      ahead.telemetry.lap_progress * track_length
    let distance_diff := ahead_distance - car_distance
    if distance_diff ≤ 0 then .inf
    else
      let avg_speed := max car.telemetry.speed 100
      let avg_speed_mps := avg_speed * 1000 / 3600
      .fin (distance_diff / avg_speed_mps)

/-- Rival-defense loop of `should_pit`: pit (with probability 0.90) if
some racing rival is both very close behind and on near-new tires. -/
def should_pit_rival_loop (car : Car) (rng : SeededRNG) :
    List Car → Bool × SeededRNG
  | [] => (false, rng)
  | rival :: rest =>
    if rival.identity.driver = car.identity.driver ∨ rival.status ≠ .RACING then
      should_pit_rival_loop car rng rest
    else
      let interval := calculate_gap_to_car_ahead rival (some car) 5000
      if interval.ltc 3 ∧ rival.telemetry.tire_state.wear < 0.02 then
        let (u, rng1) := rng.random
        if u < 0.90 then (true, rng1)
        else should_pit_rival_loop car rng1 rest
      else should_pit_rival_loop car rng rest

/-- Decide if the car should pit (driver override, hard wear ceiling,
injected advisory `predict`, or the rival-defense heuristic). -/
def should_pit (predict : Car → Bool → Bool → Bool) (car : Car)
    (all_cars : List Car) (rng : SeededRNG) (sc_active vsc_active : Bool)
    (driver_command : Option String) : Bool × SeededRNG :=
  if driver_command = some "BOX_THIS_LAP" then (true, rng)
  else
    let wear := car.telemetry.tire_state.wear
    if wear > 0.85 then (true, rng)
    else if predict car sc_active vsc_active then (true, rng)
    else if wear > 0.40 then should_pit_rival_loop car rng all_cars
    else (false, rng)

/-- Compound ladder used by the pit stop: SOFT→MEDIUM, MEDIUM→HARD,
everything else→MEDIUM. -/
def pit_ladder (compound : TireCompound) : TireCompound :=
  if compound = .SOFT then .MEDIUM
  else if compound = .MEDIUM then .HARD
  else .MEDIUM

/-- Simulate a pit stop: fresh tires on the next ladder compound, a
bounded-random lap-progress penalty (halved under SC/VSC), transient
systems reset, pit counter incremented, and a PIT_STOP event. -/
def execute_pit_stop (car : Car) (rng : SeededRNG) (tick : Nat)
    (sc_active vsc_active : Bool) : (Car × Event) × SeededRNG :=
  let new_compound := pit_ladder car.telemetry.tire_state.compound
  let (base_penalty, rng1) := rng.uniform 0.022 0.028
  let pit_time_penalty :=
    if sc_active ∨ vsc_active then base_penalty * 0.5 else base_penalty
  let new_progress := max 0 (car.telemetry.lap_progress - pit_time_penalty)
  let new_car : Car :=
    { car with
      telemetry :=
        { car.telemetry with
          speed := 60
          lap_progress := new_progress
          tire_state := ⟨new_compound, 0, 0⟩
          dirty_air_effect := 0 }
      systems := { car.systems with drs_active := false, ers_deployed := false }
      strategy := {}
      pit_stops := car.pit_stops + 1
      in_pit_lane := false
      pit_lane_progress := 0 }
  let pit_event : Event :=
    { tick := tick
      lap := car.timing.lap
      event_type := .PIT_STOP
      driver := some car.identity.driver
      payload := .pitCompound new_compound
      description := car.identity.driver ++ " pits for new tires" }
  ((new_car, pit_event), rng1)

/-- Slightly drift the weather conditions (bounded random walks). -/
def drift_weather (weather : Weather) (rng : SeededRNG) : Weather × SeededRNG :=
  let (rain_change, rng1) := rng.uniform (-RAIN_DRIFT_AMOUNT) RAIN_DRIFT_AMOUNT
  let new_rain := max 0 (min 1 (weather.rain_probability + rain_change))
  let temp_trend : ℚ := if new_rain > 0.2 then -0.05 else 0.01
  let (temp_change_val, rng2) := rng1.uniform (-TEMP_DRIFT_AMOUNT) TEMP_DRIFT_AMOUNT
  let temp_change := temp_change_val +
    (if new_rain > weather.rain_probability then temp_trend else 0)
  let new_temp := max 5 (min 45 (weather.temperature + temp_change))
  let (wind_change, rng3) := rng2.uniform (-0.1) 0.1
  let new_wind := max 0 (min 30 (weather.wind_speed + wind_change))
  (⟨new_rain, new_temp, new_wind⟩, rng3)

/-- The blue-flag branch of `update_car`: multiply the speed by
`1 − calculate_blue_flag_penalty` exactly when the car must yield. -/
def applyBlueFlag (speed : ℚ) (car_lap leader_lap : Nat) : ℚ :=
  if should_yield_for_blue_flag car_lap leader_lap then
    speed * (1 - calculate_blue_flag_penalty)
  else speed

/-- The lap-completion bookkeeping of `update_car` (lines 511–527):
when the accrued progress reaches 1.0, wrap it, increment the lap, and
— only when `lap_start_tick > 0` — record the lap time and update the
best time; returns `(lap_progress, lap, last_lap_time, best_lap_time,
lap_start_tick)`. -/
def lapCompletion (timing : CarTiming) (new_lap_progress : ℚ)
    (current_tick : Nat) : ℚ × Nat × Option ℚ × Option ℚ × Nat :=
  if new_lap_progress ≥ 1 then
    let p := new_lap_progress - 1
    let (last, best) :=
      if timing.lap_start_tick > 0 then
        let lap_time :=
          (((current_tick : ℤ) - (timing.lap_start_tick : ℤ) : ℤ) : ℚ) * 0.1
        (some lap_time,
         match timing.best_lap_time with
         | none => some lap_time
         | some b => if lap_time < b then some lap_time else some b)
      else (timing.last_lap_time, timing.best_lap_time)
    (p, timing.lap + 1, last, best, current_tick)
  else
    (new_lap_progress, timing.lap, timing.last_lap_time,
     timing.best_lap_time, timing.lap_start_tick)

/-- Update a single car's state for one tick with full physics
simulation (`update_car`). -/
def update_car (car : Car) (track : Track) (rng : SeededRNG)
    (sc_active vsc_active : Bool) (gap_to_ahead : QInf)
    (leader_lap current_tick : Nat) (driver_command : Option String) :
    Car × SeededRNG :=
  if car.status ≠ .RACING then (car, rng)
  else
    let sector := track.sectors.getD car.timing.sector ⟨.MEDIUM, 1⟩
    let sector_type := sector.sector_type
    let base_speed := BASE_SPEED sector_type
    let driving_mode :=
      if driver_command = some "PUSH" then DrivingMode.PUSH
      else if driver_command = some "CONSERVE" then DrivingMode.CONSERVE
      else if driver_command = some "BALANCED" then DrivingMode.BALANCED
      else if car.telemetry.tire_state.wear > 0.70 ∨ car.telemetry.fuel < 5 then
        DrivingMode.CONSERVE
      else if gap_to_ahead.ltc 1 ∧ car.systems.ers_battery > 2 then
        DrivingMode.PUSH
      else if gap_to_ahead.gtc 3 ∧ car.telemetry.tire_state.wear < 0.3 then
        DrivingMode.PUSH
      else DrivingMode.BALANCED
    let active_command := driver_command
    let dirty_air_penalty := calculate_dirty_air_penalty gap_to_ahead sector_type
    let (new_speed, rng1) := calculate_speed base_speed
      car.telemetry.tire_state.wear car.telemetry.fuel car.driver_skill rng
      track.weather.rain_probability car.telemetry.tire_state.compound
      driving_mode dirty_air_penalty
    let new_drs_active := can_activate_drs car.telemetry.lap_progress
      gap_to_ahead track.drs_zones track.weather.rain_probability
      sc_active vsc_active
    let new_speed :=
      if new_drs_active then new_speed + calculate_drs_boost true else new_speed
    let new_speed := new_speed + calculate_slipstream_boost gap_to_ahead sector_type
    let new_battery := calculate_ers_harvest car.systems.ers_battery sector_type
    let (new_battery, ers_boost, new_ers_deployed) :=
      calculate_ers_deployment new_battery sector_type car.systems.ers_deployed
    let new_speed := new_speed + ers_boost
    let new_speed := applyBlueFlag new_speed car.timing.lap leader_lap
    let (new_speed, new_drs_active) :=
      if sc_active then (min new_speed SC_SPEED, false)
      else if vsc_active then (new_speed * (1 - VSC_SPEED_REDUCTION), false)
      else (new_speed, new_drs_active)
    let (new_tire_wear, rng2) := calculate_tire_wear
      car.telemetry.tire_state.wear car.telemetry.tire_state.compound rng1
      driving_mode
    let new_fuel := calculate_fuel_consumption car.telemetry.fuel driving_mode
    let distance_km := new_speed / 3600 * 0.1
    let distance_m := distance_km * 1000
    let progress_increase := distance_m / track.length
    let new_lap_progress := car.telemetry.lap_progress + progress_increase
    let (new_lap_progress, new_lap, new_last_lap_time, new_best_lap_time,
        new_lap_start_tick) :=
      lapCompletion car.timing new_lap_progress current_tick
    let new_sector := calculate_sector new_lap_progress track
    ({ identity := car.identity
       telemetry :=
         { speed := new_speed
           fuel := new_fuel
           lap_progress := new_lap_progress
           tire_state :=
             { compound := car.telemetry.tire_state.compound
               age := car.telemetry.tire_state.age +
                 (if new_lap > car.timing.lap then 1 else 0)
               wear := new_tire_wear }
           dirty_air_effect := dirty_air_penalty }
       systems :=
         { drs_active := new_drs_active
           ers_battery := new_battery
           ers_deployed := new_ers_deployed }
       strategy :=
         { driving_mode := driving_mode
           active_command := active_command }
       timing :=
         { position := car.timing.position
           lap := new_lap
           sector := new_sector
           last_lap_time := new_last_lap_time
           best_lap_time := new_best_lap_time
           lap_start_tick := new_lap_start_tick }
       pit_stops := car.pit_stops
       status := car.status
       driver_skill := car.driver_skill
       in_pit_lane := car.in_pit_lane
       pit_lane_progress := car.pit_lane_progress }, rng2)

/-!  ## Position / gap / overtake recomputation (`recalculate_positions`)

Python sorts the whole roster (DNF cars included) by the key
`(lap, lap_progress)` descending with a stable sort, then walks the
sorted list assigning positions `i + 1`, computing gaps against the
car ahead and the leader, and emitting overtake events against the
previous tick's position dictionary.  The dictionary is modelled as an
association list whose keys (driver names) are unique, as they are in
every roster the engine builds. -/

/-- `(lap, lap_progress)` of `a` is lexicographically ≥ that of `b`. -/
def progressKeyGe (a b : Car) : Bool :=
  decide (b.timing.lap < a.timing.lap) ||
    (decide (a.timing.lap = b.timing.lap) &&
     decide (b.telemetry.lap_progress ≤ a.telemetry.lap_progress))

/-- Stable descending insertion: `c` goes after every car whose key is
greater than or equal to its own (so earlier equal-key cars stay first,
matching Python's stable `sorted(..., reverse=True)`). -/
def insertByProgressDesc (c : Car) : List Car → List Car
  | [] => [c]
  | x :: xs =>
    if progressKeyGe x c then x :: insertByProgressDesc c xs
    else c :: x :: xs

/-- Sort cars by total progress `(lap, lap_progress)` descending,
stably. -/
def sortCarsByProgress (cars : List Car) : List Car :=
  cars.foldl (fun acc c => insertByProgressDesc c acc) []

/-- A sorted car re-fitted with its new position (0-based index `i`)
and its gaps to the car ahead and to the leader (leader gets `none`). -/
def positionedCar (track : Track) (leader : Option Car) (i : Nat)
    (ahead : Option Car) (c : Car) : Car :=
  let new_position := i + 1
  let gap_to_leader :=
    if i > 0 then some (calculate_gap_to_car_ahead c leader track.length)
    else none
  let interval :=
    if i > 0 then some (calculate_gap_to_car_ahead c ahead track.length)
    else none
  { c with
    timing :=
      { c.timing with
        position := new_position
        gap_to_leader := gap_to_leader
        interval := interval } }

/-- Python `old_positions.get(driver)` (dict keys are unique driver
names, so first match is the binding). -/
def dictGet (m : List (String × Nat)) (k : String) : Option Nat :=
  (m.find? fun kv => kv.1 = k).map (·.2)

/-- The overtake event (if any) for a car landing at `new_position`:
emitted when its position strictly improved on the previous tick, it is
RACING, and a (truthy, i.e. non-empty) previous holder of that slot is
found in the old position map. -/
def overtakeEventFor (old_positions : List (String × Nat))
    (tick current_lap new_position : Nat) (car : Car) : Option Event :=
  match dictGet old_positions car.identity.driver with
  | none => none
  | some old_pos =>
    if new_position < old_pos ∧ car.status = .RACING then
      match old_positions.find? fun p =>
          decide (p.2 = new_position) && decide (p.1 ≠ car.identity.driver) with
      | some q =>
        if q.1 ≠ "" then
          some { tick := tick
                 lap := current_lap
                 event_type := .OVERTAKE
                 driver := some car.identity.driver
                 payload := .overtake car.identity.driver q.1 new_position
                 description := car.identity.driver ++ " overtakes " ++ q.1 }
        else none
      | none => none
    else none

/-- Walk the sorted roster assigning positions `i + 1`, computing gaps,
and collecting overtake events, carrying the car ahead in sorted order. -/
def assignPositions (track : Track) (leader : Option Car)
    (old_positions : List (String × Nat)) (tick current_lap : Nat) :
    List Car → Nat → Option Car → List Car × List Event
  | [], _, _ => ([], [])
  | c :: rest, i, ahead =>
    let nc := positionedCar track leader i ahead c
    let (cars, events) :=
      assignPositions track leader old_positions tick current_lap rest (i + 1) (some c)
    match overtakeEventFor old_positions tick current_lap (i + 1) c with
    | some e => (nc :: cars, e :: events)
    | none => (nc :: cars, events)

/-- Recalculate race positions from total progress and detect
overtakes. -/
def recalculate_positions (cars : List Car) (track : Track)
    (old_positions : List (String × Nat)) (tick current_lap : Nat) :
    List Car × List Event :=
  let sorted_cars := sortCarsByProgress cars
  let leader := sorted_cars.head?
  assignPositions track leader old_positions tick current_lap sorted_cars 0 none

/-!  ## The tick orchestrator (`tick`)

Python mutates the caller's `driver_commands` dict and the RNG in
place; the embedding threads both explicitly and returns them, so the
returned command map is the caller's dict after the call. -/

/-- Python `driver_commands.get(driver)` (dict keys are unique driver
names, so first match is the binding). -/
def cmdGet (m : List (String × String)) (k : String) : Option String :=
  (m.find? fun kv => kv.1 = k).map (·.2)

/-- Python `del driver_commands[driver]` for a unique-keyed dict. -/
def cmdDel (m : List (String × String)) (k : String) : List (String × String) :=
  m.filter fun kv => kv.1 ≠ k

/-- Python `driver in driver_commands`. -/
def cmdMem (m : List (String × String)) (k : String) : Bool :=
  m.any fun kv => kv.1 = k

/-- The dict `{c.position : c for RACING c}`: Python comprehension
semantics keep the last binding for a duplicated position. -/
def posLookup (cars : List Car) (p : Nat) : Option Car :=
  (cars.filter fun c => c.status = .RACING ∧ c.timing.position = p).getLast?

/-- Leader by position alone (the weather block's lookup, line 97). -/
def leaderAny (cars : List Car) : Option Car :=
  cars.find? fun c => c.timing.position = 1

/-- Leader that is still racing (the SC block's lookup, line 127). -/
def leaderRacing (cars : List Car) : Option Car :=
  cars.find? fun c => c.timing.position = 1 ∧ c.status = .RACING

/-- The racing leader's lap, or 0 when there is none. -/
def leaderLap (cars : List Car) : Nat :=
  match leaderRacing cars with
  | some c => c.timing.lap
  | none => 0

/-- The weather block of `tick` (lines 82–118): when the drift draw
hits, drift the weather (three draws) and log a WEATHER_CHANGE event on
a dry/wet threshold crossing; otherwise leave track and events alone. -/
def weatherStep (state : RaceState) (new_tick : Nat) (rng1 : SeededRNG)
    (drift : Bool) : Track × List Event × SeededRNG :=
  if drift then
    let (new_weather, rngW) := drift_weather state.track.weather rng1
    let new_track := { state.track with weather := new_weather }
    let old_rain := state.track.weather.rain_probability
    let new_rain := new_weather.rain_probability
    let wet_threshold : ℚ := 0.2
    let current_lap :=
      match leaderAny state.cars with
      | some c => c.timing.lap
      | none => 0
    let new_events :=
      if old_rain < wet_threshold ∧ new_rain ≥ wet_threshold then
        state.events ++
          [{ tick := new_tick
             lap := current_lap
             event_type := .WEATHER_CHANGE
             payload := .rainProb new_rain
             description := "Rain started - Track is wet" }]
      else if old_rain ≥ wet_threshold ∧ new_rain < wet_threshold then
        state.events ++
          [{ tick := new_tick
             lap := current_lap
             event_type := .WEATHER_CHANGE
             payload := .rainProb new_rain
             description := "Rain stopped - Track drying" }]
      else state.events
    (new_track, new_events, rngW)
  else (state.track, state.events, rng1)

/-- The SC-release check of `tick` (lines 120–137): while a safety car
is deployed, release it (back to GREEN, deployment lap cleared) once
the racing leader's lap has advanced `SC_LAPS_DURATION` laps past the
recorded deployment lap. -/
def scRelease (rc : RaceControl) (deploy : Option Nat) (current_lap : Nat) :
    RaceControl × Option Nat :=
  match deploy with
  | some dl =>
    if rc = .SAFETY_CAR ∧ current_lap ≥ dl + SC_LAPS_DURATION then
      (.GREEN, none)
    else (rc, deploy)
  | none => (rc, deploy)

/-- Mutable state threaded through the per-car loop of `tick`. -/
structure LoopState where
  rng : SeededRNG
  cmds : List (String × String)
  rc : RaceControl
  deploy : Option Nat
  cars : List Car
  events : List Event

/-- The DNF branch of the per-car loop (lines 154–170): record the DNF
event and, only under GREEN, escalate to a safety car with probability
0.3. -/
def carStepDnf (current_lap new_tick : Nat) (ls : LoopState)
    (car updated_car : Car) (ev : Event) (rng1 : SeededRNG) : LoopState :=
  if ls.rc = .GREEN then
    let (esc, rng2) := rng1.chance 0.3
    if esc then
      let sc_ev : Event :=
        { tick := new_tick
          lap := car.timing.lap
          event_type := .SAFETY_CAR
          driver := none
          payload := .scCause car.identity.driver
          description := "Safety Car deployed for " ++ car.identity.driver }
      { ls with
        rng := rng2
        rc := .SAFETY_CAR
        deploy := some current_lap
        cars := ls.cars ++ [updated_car]
        events := ls.events ++ [ev, sc_ev] }
    else
      { ls with
        rng := rng2
        cars := ls.cars ++ [updated_car]
        events := ls.events ++ [ev] }
  else
    { ls with
      rng := rng1
      cars := ls.cars ++ [updated_car]
      events := ls.events ++ [ev] }

/-- The LAP_COMPLETE event of the per-car loop (lines 206–219),
emitted when the lap counter advanced and a lap time was recorded. -/
def lapCompleteEvents (new_tick old_lap : Nat) (updated_car : Car) :
    List Event :=
  if updated_car.timing.lap > old_lap ∧
      updated_car.timing.last_lap_time ≠ none then
    match updated_car.timing.last_lap_time with
    | some t =>
      [{ tick := new_tick
         lap := updated_car.timing.lap
         event_type := .LAP_COMPLETE
         driver := some updated_car.identity.driver
         payload := .lapComplete t updated_car.telemetry.tire_state.compound
           (pyRound updated_car.telemetry.tire_state.wear 4)
           (pyRound updated_car.telemetry.fuel 2)
         description := updated_car.identity.driver ++ " completes a lap" }]
    | none => []
  else []

/-- The pit-or-drive branch of the per-car loop (lines 172–221):
gap to the car ahead, pit decision and execution (with the one-shot
command deletion) or the physics update, then lap bookkeeping. -/
def carStepDrive (predict : Car → Bool → Bool → Bool) (track : Track)
    (oldCars : List Car) (sc_active vsc_active : Bool)
    (current_lap new_tick : Nat) (ls : LoopState) (car : Car)
    (rng1 : SeededRNG) : LoopState :=
  let car_ahead :=
    if car.timing.position > 1 then posLookup oldCars (car.timing.position - 1)
    else none
  let gap_to_ahead := calculate_gap_to_car_ahead car car_ahead track.length
  let old_lap := car.timing.lap
  let driver_cmd := cmdGet ls.cmds car.identity.driver
  let (wants_pit, rng2) :=
    if car.telemetry.lap_progress < 0.05 ∧ car.timing.lap > 0 then
      should_pit predict car oldCars rng1 sc_active vsc_active driver_cmd
    else (false, rng1)
  if wants_pit ∧ ¬ car.in_pit_lane then
    let ((updated_car, pit_event), rng3) :=
      execute_pit_stop car rng2 new_tick sc_active vsc_active
    let cmds1 :=
      if driver_cmd = some "BOX_THIS_LAP" ∧ cmdMem ls.cmds car.identity.driver then
        cmdDel ls.cmds car.identity.driver
      else ls.cmds
    { ls with
      rng := rng3
      cmds := cmds1
      cars := ls.cars ++ [updated_car]
      events := ls.events ++ [pit_event] }
  else
    let (updated_car, rng3) := update_car car track rng2
      (ls.rc = .SAFETY_CAR) (ls.rc = .VSC) gap_to_ahead current_lap
      new_tick (cmdGet ls.cmds car.identity.driver)
    let cmds1 :=
      if cmdMem ls.cmds car.identity.driver then
        if cmdGet ls.cmds car.identity.driver = some "BOX_THIS_LAP" ∧
            updated_car.in_pit_lane then
          cmdDel ls.cmds car.identity.driver
        else ls.cmds
      else ls.cmds
    { ls with
      rng := rng3
      cmds := cmds1
      cars := ls.cars ++ [updated_car]
      events := ls.events ++ lapCompleteEvents new_tick old_lap updated_car }

/-- One iteration of the per-car loop of `tick` (lines 147–221). -/
def carStep (predict : Car → Bool → Bool → Bool) (track : Track)
    (oldCars : List Car) (sc_active vsc_active : Bool)
    (current_lap new_tick : Nat) (ls : LoopState) (car : Car) : LoopState :=
  if car.status = .DNF then
    { ls with cars := ls.cars ++ [car] }
  else
    let ((updated_car, dnf_event), rng1) := check_for_dnf car ls.rng new_tick
    match dnf_event with
    | some ev => carStepDnf current_lap new_tick ls car updated_car ev rng1
    | none =>
      carStepDrive predict track oldCars sc_active vsc_active current_lap
        new_tick ls car rng1

/-- The FASTEST_LAP sweep over the re-positioned roster
(lines 229–245). -/
def fastestLapEvents (new_tick : Nat) (new_cars : List Car) : List Event :=
  new_cars.filterMap fun car =>
    if car.timing.last_lap_time ≠ none ∧ car.status = .RACING then
      let all_best_times := new_cars.filterMap fun c =>
        if c.identity.driver ≠ car.identity.driver then c.timing.best_lap_time
        else none
      match car.timing.best_lap_time with
      | none => none
      | some b =>
        if all_best_times.all fun t => decide (b < t) then
          if car.timing.last_lap_time = some b then
            some { tick := new_tick
                   lap := car.timing.lap
                   event_type := .FASTEST_LAP
                   driver := some car.identity.driver
                   payload := .fastestLap b
                   description := car.identity.driver ++ " sets fastest lap" }
          else none
        else none
    else none

/-- Advance the race by one tick (100 ms simulation time).  Returns the
new state together with the caller's command map after the call (the
Python function mutates it in place) and the advanced RNG. -/
def tick (predict : Car → Bool → Bool → Bool) (state : RaceState)
    (rng : SeededRNG) (driver_commands : List (String × String)) :
    RaceState × List (String × String) × SeededRNG :=
  let new_tick := state.meta.tick + 1
  let new_timestamp := state.meta.timestamp + 100
  let new_meta : Meta :=
    { seed := state.meta.seed
      tick := new_tick
      timestamp := new_timestamp
      laps_total := state.meta.laps_total }
  -- Weather drift
  let (drift, rng1) := rng.chance WEATHER_DRIFT_CHANCE
  let (new_track, new_events, rng2) := weatherStep state new_tick rng1 drift
  -- Safety car / VSC status
  let sc_active := state.race_control = RaceControl.SAFETY_CAR
  let vsc_active := state.race_control = RaceControl.VSC
  let current_lap := leaderLap state.cars
  let (new_race_control, new_sc_deploy_lap) :=
    scRelease state.race_control state.sc_deploy_lap current_lap
  -- Per-car loop
  let ls0 : LoopState :=
    { rng := rng2
      cmds := driver_commands
      rc := new_race_control
      deploy := new_sc_deploy_lap
      cars := []
      events := new_events }
  let ls := state.cars.foldl
    (carStep predict state.track state.cars sc_active vsc_active current_lap new_tick)
    ls0
  -- Recalculate positions and detect overtakes
  let old_positions := state.cars.map fun c => (c.identity.driver, c.timing.position)
  let (new_cars, overtake_events) :=
    recalculate_positions ls.cars state.track old_positions new_tick current_lap
  let new_events := ls.events ++ overtake_events
  -- Global fastest lap
  let new_events := new_events ++ fastestLapEvents new_tick new_cars
  let is_sc_or_vsc := ls.rc = RaceControl.SAFETY_CAR ∨ ls.rc = RaceControl.VSC
  ({ meta := new_meta
     track := new_track
     cars := new_cars
     events := new_events
     race_control := ls.rc
     drs_enabled := ¬ is_sc_or_vsc
     sc_deploy_lap := ls.deploy }, ls.cmds, ls.rng)

/-- Run `tick` repeatedly from a state, feeding the (fixed) per-step
command map `cmds k` to step `k`, and collecting the state sequence
(initial state first). -/
def raceTrace (predict : Car → Bool → Bool → Bool)
    (cmds : Nat → List (String × String)) (state : RaceState)
    (rng : SeededRNG) (k : Nat) : Nat → List RaceState
  | 0 => [state]
  | n + 1 =>
    let (s1, _, rng1) := tick predict state rng (cmds k)
    state :: raceTrace predict cmds s1 rng1 (k + 1) n

/-!  ## Concrete fixtures

Fixed small inputs used to evaluate the engine in counterexamples and
witnesses.  `predictNever` is the advisory pit capability as shipped:
the trained-model artifact is absent from the repository, so
`PitStrategyPredictor.predict_should_pit` always returns `False`. -/

/-- The pit-advisory capability with no model artifact: always `false`. -/
def predictNever : Car → Bool → Bool → Bool := fun _ _ _ => false

/-- An RNG whose every `random()` draw is 1/2 (all rare chances miss,
all uniform draws land mid-range). -/
def rngHalf : SeededRNG := ⟨fun _ => 1/2, 0⟩

/-- A small three-sector track: total length 3 m so that one tick
completes a lap, dry weather, no DRS zones. -/
def demoTrack : Track :=
  { length := 3
    sectors := [⟨.FAST, 1⟩, ⟨.FAST, 1⟩, ⟨.FAST, 1⟩]
    weather := { rain_probability := 0, temperature := 22, wind_speed := 0 }
    drs_zones := [] }

/-- A car fixture: MEDIUM tires with the given wear, 50 kg fuel,
skill 0.90. -/
def mkCar (driver : String) (pos lap : Nat) (progress : ℚ)
    (status : CarStatus) : Car :=
  { identity := { driver := driver, team := "Test Team" }
    telemetry :=
      { speed := 200
        fuel := 50
        lap_progress := progress
        tire_state := { compound := .MEDIUM, age := 0, wear := 0 }
        dirty_air_effect := 0 }
    systems := {}
    strategy := {}
    timing := { position := pos, lap := lap, sector := 0 }
    pit_stops := 0
    status := status
    driver_skill := 0.90 }

/-- A race-state fixture around `demoTrack`. -/
def mkState (cars : List Car) (rc : RaceControl) (deploy : Option Nat) :
    RaceState :=
  { meta := { seed := 42, tick := 0, timestamp := 0, laps_total := 5 }
    track := demoTrack
    cars := cars
    events := []
    race_control := rc
    drs_enabled := rc ≠ .SAFETY_CAR ∧ rc ≠ .VSC
    sc_deploy_lap := deploy }

/-- Total distance covered by a car, in meters, as `calculate_gap_to_car_ahead`
measures it: `lap × track_length + lap_progress × track_length`. -/
def carTotalDistance (c : Car) (track_length : ℚ) : ℚ :=
  c.timing.lap * track_length + c.telemetry.lap_progress * track_length

/-!  ## Structural lemmas about the position recomputation -/

/-- Cars component of `assignPositions` on a cons. -/
theorem assign_fst_cons (track : Track) (leader : Option Car)
    (old : List (String × Nat)) (tk lap : Nat) (c : Car) (l : List Car)
    (i : Nat) (a : Option Car) :
    (assignPositions track leader old tk lap (c :: l) i a).1 =
      positionedCar track leader i a c ::
        (assignPositions track leader old tk lap l (i + 1) (some c)).1 := by
  cases h : overtakeEventFor old tk lap (i + 1) c <;> simp [assignPositions, h]

/-- Events component of `assignPositions` on a cons. -/
theorem assign_snd_cons (track : Track) (leader : Option Car)
    (old : List (String × Nat)) (tk lap : Nat) (c : Car) (l : List Car)
    (i : Nat) (a : Option Car) :
    (assignPositions track leader old tk lap (c :: l) i a).2 =
      (overtakeEventFor old tk lap (i + 1) c).toList ++
        (assignPositions track leader old tk lap l (i + 1) (some c)).2 := by
  cases h : overtakeEventFor old tk lap (i + 1) c <;> simp [assignPositions, h]

/-- The positions assigned along the sorted roster are consecutive,
starting at `i + 1`. -/
theorem assign_map_position (track : Track) (leader : Option Car)
    (old : List (String × Nat)) (tk lap : Nat) :
    ∀ (l : List Car) (i : Nat) (a : Option Car),
      ((assignPositions track leader old tk lap l i a).1.map
        fun c => c.timing.position) = List.range' (i + 1) l.length := by
  intro l
  induction l with
  | nil => intro i a; rfl
  | cons c l ih =>
    intro i a
    rw [assign_fst_cons]
    simp [positionedCar, List.range'_succ, ih]

/-- `assignPositions` does not change the drivers along the roster. -/
theorem assign_map_driver (track : Track) (leader : Option Car)
    (old : List (String × Nat)) (tk lap : Nat) :
    ∀ (l : List Car) (i : Nat) (a : Option Car),
      ((assignPositions track leader old tk lap l i a).1.map
        fun c => c.identity.driver) = l.map fun c => c.identity.driver := by
  intro l
  induction l with
  | nil => intro i a; rfl
  | cons c l ih =>
    intro i a
    rw [assign_fst_cons]
    simp [positionedCar, ih]

/-- Stable descending insertion permutes. -/
theorem insertByProgressDesc_perm (c : Car) (l : List Car) :
    (insertByProgressDesc c l).Perm (c :: l) := by
  induction l with
  | nil => exact List.Perm.refl _
  | cons x xs ih =>
    unfold insertByProgressDesc
    split
    · exact (ih.cons x).trans (List.Perm.swap c x xs)
    · exact List.Perm.refl _

/-- Folding the stable insertion over a list permutes onto the
accumulator. -/
theorem foldl_insert_perm :
    ∀ (l acc : List Car),
      (l.foldl (fun acc c => insertByProgressDesc c acc) acc).Perm (l ++ acc) := by
  intro l
  induction l with
  | nil => intro acc; simp
  | cons c l ih =>
    intro acc
    simp only [List.foldl_cons, List.cons_append]
    exact ((ih _).trans (List.Perm.append_left l (insertByProgressDesc_perm c acc))).trans
      List.perm_middle

/-- The progress sort is a permutation of the roster. -/
theorem sortCarsByProgress_perm (cars : List Car) :
    (sortCarsByProgress cars).Perm cars := by
  simpa [sortCarsByProgress] using foldl_insert_perm cars []

/-!  ## C1 — determinism -/

/-- C1: for every initial race state, seed, tick count and fixed
per-tick command sequence, two runs of `tick` iterated `N` times, each
with a `SeededRNG` freshly built from the same seed, produce identical
state sequences: equal car speeds, fuel, lap progress, and event logs.
In the embedding every `tick` input is explicit (state, RNG stream,
commands, advisory capability), so the two runs are equal outright. -/
theorem tick_runs_are_identical (predict : Car → Bool → Bool → Bool)
    (gen : Int → Nat → ℚ) (seed : Int) (s0 : RaceState)
    (cmds : Nat → List (String × String)) (N : Nat) :
    (raceTrace predict cmds s0 (SeededRNG.ofSeed gen seed) 0 N).map
        (fun st => (st.cars.map fun c =>
          (c.telemetry.speed, c.telemetry.fuel, c.telemetry.lap_progress),
          st.events)) =
      (raceTrace predict cmds s0 (SeededRNG.ofSeed gen seed) 0 N).map
        (fun st => (st.cars.map fun c =>
          (c.telemetry.speed, c.telemetry.fuel, c.telemetry.lap_progress),
          st.events)) := rfl

/-!  ## C2 — position permutation -/

/-- A car that is DNF but ahead on the road: sorted first. -/
def dnfLeader : Car := mkCar "AAA" 1 5 (1/2) .DNF

/-- A racing car behind the DNF car. -/
def racingTrailer : Car := mkCar "BBB" 2 3 0 .RACING

/-- C2 counterexample: `recalculate_positions` ranks the whole roster,
DNF cars included.  With a DNF car ahead on the road, the RACING cars'
positions are `[2]`, not `1..count(RACING) = [1]`. -/
theorem racing_positions_not_compact :
    (((recalculate_positions [dnfLeader, racingTrailer] demoTrack
        [("AAA", 1), ("BBB", 2)] 1 3).1.filter fun c =>
          c.status = .RACING).map fun c => c.timing.position) = [2] ∧
    ([2] : List Nat) ≠
      List.range' 1 (([dnfLeader, racingTrailer].filter fun c =>
        c.status = (.RACING : CarStatus)).length) := by
  with_unfolding_all decide

/-- C2 amended: after recomputation the positions of ALL cars (DNF
included), read along the output order, are exactly `1..n` for `n` the
roster size, and the output is a (driver-)permutation of the input;
RACING cars' positions are therefore a subset of `1..n` that need not
be `1..count(RACING)` when a DNF car ranks above a racing car. -/
theorem recalculate_positions_all_cars_ranked (cars : List Car)
    (track : Track) (old : List (String × Nat)) (tk lap : Nat) :
    (((recalculate_positions cars track old tk lap).1.map
        fun c => c.timing.position) = List.range' 1 cars.length) ∧
    ((recalculate_positions cars track old tk lap).1.map
        fun c => c.identity.driver).Perm
      (cars.map fun c => c.identity.driver) := by
  unfold recalculate_positions
  constructor
  · rw [assign_map_position]
    rw [(sortCarsByProgress_perm cars).length_eq]
  · rw [assign_map_driver]
    exact (sortCarsByProgress_perm cars).map _

/-!  ## C7 — blue flags -/

/-- The leader for the C7 counterexample. -/
def c7Leader : Car := mkCar "LEC" 1 5 0 .RACING

/-- The straggler for the C7 counterexample: one lap down by counter
yet only a tenth of a lap behind in distance. -/
def c7Straggler : Car := mkCar "HAM" 2 4 (9/10) .RACING

/-- C7 counterexample: the blue-flag predicate is keyed on the lap
counter, not distance.  The straggler is only 1/10 of a lap behind the
leader in total distance (not more than one full lap), yet
`should_yield_for_blue_flag` fires and the engine's blue-flag branch
cuts the speed by 10%. -/
theorem blue_flag_fires_within_one_lap :
    carTotalDistance c7Leader 1 - carTotalDistance c7Straggler 1 = 1/10 ∧
    ((1 : ℚ)/10) < 1 ∧
    should_yield_for_blue_flag c7Straggler.timing.lap c7Leader.timing.lap = true ∧
    applyBlueFlag 200 c7Straggler.timing.lap c7Leader.timing.lap = 180 := by
  with_unfolding_all decide

/-- C7 amended: during the per-tick update the fixed 10% blue-flag
speed cut is applied if and only if the leader's lap counter strictly
exceeds the car's lap counter (the car is at least one lap down by lap
counter, regardless of fractional distance behind). -/
theorem blue_flag_iff_lap_counter (s : ℚ) (car_lap leader_lap : Nat) :
    (should_yield_for_blue_flag car_lap leader_lap = true ↔
      car_lap < leader_lap) ∧
    applyBlueFlag s car_lap leader_lap =
      (if car_lap < leader_lap then s * (9/10) else s) := by
  constructor
  · simp [should_yield_for_blue_flag]
  · unfold applyBlueFlag should_yield_for_blue_flag calculate_blue_flag_penalty
    by_cases h : car_lap < leader_lap
    · have h910 : (1 : ℚ) - 0.10 = 9/10 := by norm_num
      simp [h, h910]
    · simp [h]

/-!  ## C8 — tire wear -/

/-- C8: for wear `w ∈ [0,1]`, any compound, any driving mode, and any
RNG draw (a stream value in `[0,1)`), `calculate_tire_wear` returns
`min (w + rate(compound) × variance × mode_multiplier × (1.5 if w > 0.5
else 1)) 1` for some variance in `[0.8, 1.2]`, with multiplier 1.25 for
PUSH, 0.70 for CONSERVE and 1 otherwise; the result is never below `w`
and never above 1. -/
theorem calculate_tire_wear_spec (w : ℚ) (compound : TireCompound)
    (rng : SeededRNG) (mode : DrivingMode)
    (hw0 : 0 ≤ w) (hw1 : w ≤ 1)
    (hu0 : 0 ≤ rng.stream rng.idx) (hu1 : rng.stream rng.idx < 1) :
    ∃ variance : ℚ, 0.8 ≤ variance ∧ variance ≤ 1.2 ∧
      (calculate_tire_wear w compound rng mode).1 =
        min (w + TIRE_WEAR_RATES compound * variance *
          (match mode with
           | .PUSH => 1.25 | .CONSERVE => 0.70 | .BALANCED => 1) *
          (if w > 0.5 then 1.5 else 1)) 1 ∧
      w ≤ (calculate_tire_wear w compound rng mode).1 ∧
      (calculate_tire_wear w compound rng mode).1 ≤ 1 := by
  have hrate : 0 < TIRE_WEAR_RATES compound := by
    cases compound <;> norm_num [TIRE_WEAR_RATES]
  have hmode : 0 < (match mode with
      | DrivingMode.PUSH => (1.25 : ℚ)
      | DrivingMode.CONSERVE => 0.70
      | DrivingMode.BALANCED => 1) := by
    cases mode <;> norm_num
  set u := rng.stream rng.idx with hu
  refine ⟨0.8 + (1.2 - 0.8) * u, by nlinarith, by nlinarith, ?_, ?_, ?_⟩
  · unfold calculate_tire_wear SeededRNG.uniform SeededRNG.random
    cases mode <;> split_ifs <;> simp_all
  · unfold calculate_tire_wear SeededRNG.uniform SeededRNG.random
    have hvar : (0.8 : ℚ) ≤ 0.8 + (1.2 - 0.8) * u := by nlinarith
    refine le_min ?_ hw1
    cases mode <;> split_ifs <;> dsimp <;> nlinarith
  · unfold calculate_tire_wear SeededRNG.uniform SeededRNG.random
    exact min_le_right _ _

/-- C8 witness: fresh MEDIUM tires in PUSH mode at the mid-range draw. -/
theorem calculate_tire_wear_spec_witness :
    ∃ variance : ℚ, 0.8 ≤ variance ∧ variance ≤ 1.2 ∧
      (calculate_tire_wear 0 .MEDIUM rngHalf .PUSH).1 =
        min ((0 : ℚ) + TIRE_WEAR_RATES .MEDIUM * variance * 1.25 *
          (if (0 : ℚ) > 0.5 then 1.5 else 1)) 1 ∧
      (0 : ℚ) ≤ (calculate_tire_wear 0 .MEDIUM rngHalf .PUSH).1 ∧
      (calculate_tire_wear 0 .MEDIUM rngHalf .PUSH).1 ≤ 1 :=
  calculate_tire_wear_spec 0 .MEDIUM rngHalf .PUSH (by norm_num)
    (by norm_num) (by norm_num [rngHalf]) (by norm_num [rngHalf])

/-!  ## C9 — pit compound ladder -/

/-- C9: `execute_pit_stop` fits MEDIUM after SOFT, HARD after MEDIUM,
and MEDIUM after HARD/INTERMEDIATE/WET; the new tire state has age 0
and wear 0, the pit counter increments by exactly one, and the PIT_STOP
event names the driver and the new compound. -/
theorem execute_pit_stop_spec (car : Car) (rng : SeededRNG) (tk : Nat)
    (sc vsc : Bool) :
    ((execute_pit_stop car rng tk sc vsc).1.1.telemetry.tire_state.compound =
       (match car.telemetry.tire_state.compound with
        | .SOFT => .MEDIUM | .MEDIUM => .HARD
        | .HARD => .MEDIUM | .INTERMEDIATE => .MEDIUM | .WET => .MEDIUM)) ∧
    (execute_pit_stop car rng tk sc vsc).1.1.telemetry.tire_state.age = 0 ∧
    (execute_pit_stop car rng tk sc vsc).1.1.telemetry.tire_state.wear = 0 ∧
    (execute_pit_stop car rng tk sc vsc).1.1.pit_stops = car.pit_stops + 1 ∧
    (execute_pit_stop car rng tk sc vsc).1.2.event_type = .PIT_STOP ∧
    (execute_pit_stop car rng tk sc vsc).1.2.driver = some car.identity.driver ∧
    (execute_pit_stop car rng tk sc vsc).1.2.payload =
      .pitCompound
        ((execute_pit_stop car rng tk sc vsc).1.1.telemetry.tire_state.compound) := by
  cases hc : car.telemetry.tire_state.compound <;>
    simp [execute_pit_stop, pit_ladder, hc]

/-!  ## C5 — the caller's command map is mutated -/

/-- A single racing car past lap 0, at the start/finish line, so a
BOX_THIS_LAP command forces a pit this tick. -/
def stC5 : RaceState := mkState [mkCar "VER" 1 1 0 .RACING] .GREEN none

/-- C5: evaluating `tick` on a car that pits under BOX_THIS_LAP shows
the engine deleting the consumed command from the caller's map (the
returned map is empty although the caller passed one entry), while a
PIT_STOP event confirms the pit was taken.  This contradicts the
documented contract (`tick` is advertised as side-effect free and the
spec requires consumption via the return contract, not by mutating the
caller's map). -/
theorem tick_deletes_caller_box_command :
    (tick predictNever stC5 rngHalf [("VER", "BOX_THIS_LAP")]).2.1 = [] ∧
    ([("VER", "BOX_THIS_LAP")] : List (String × String)) ≠ [] ∧
    ((tick predictNever stC5 rngHalf [("VER", "BOX_THIS_LAP")]).1.events.map
      fun e => e.event_type) = [.PIT_STOP] := by
  with_unfolding_all decide

/-!  ## C10 — gap totality and non-negativity -/

/-- A published gap field is well formed when it is absent (the
leader), infinite, or a strictly positive number of seconds. -/
def gapOk : Option QInf → Prop
  | none => True
  | some .inf => True
  | some (.fin q) => 0 < q

/-- Any gap the engine computes is infinite or strictly positive. -/
theorem calculate_gap_gapOk (car : Car) (ahead : Option Car) (L : ℚ) :
    gapOk (some (calculate_gap_to_car_ahead car ahead L)) := by
  cases ahead with
  | none => simp [calculate_gap_to_car_ahead, gapOk]
  | some a =>
    have key : calculate_gap_to_car_ahead car (some a) L =
        (if carTotalDistance a L - carTotalDistance car L ≤ 0 then QInf.inf
         else .fin ((carTotalDistance a L - carTotalDistance car L) /
           (max car.telemetry.speed 100 * 1000 / 3600))) := rfl
    rw [key]
    by_cases h : carTotalDistance a L - carTotalDistance car L ≤ 0
    · simp [h, gapOk]
    · have hden : (0 : ℚ) < max car.telemetry.speed 100 * 1000 / 3600 := by
        apply div_pos
        · apply mul_pos
          · have := le_max_right car.telemetry.speed (100 : ℚ)
            linarith
          · norm_num
        · norm_num
      have hnum : (0 : ℚ) < carTotalDistance a L - carTotalDistance car L := by
        linarith [not_le.mp h]
      simp [h, gapOk]
      linarith

/-- Every car the recomputation outputs carries well-formed gap
fields. -/
theorem assign_gapOk (track : Track) (leader : Option Car)
    (old : List (String × Nat)) (tk lap : Nat) :
    ∀ (l : List Car) (i : Nat) (a : Option Car),
      ((assignPositions track leader old tk lap l i a).1.Forall fun c =>
        gapOk c.timing.interval ∧ gapOk c.timing.gap_to_leader) := by
  intro l
  induction l with
  | nil => intro i a; trivial
  | cons c l ih =>
    intro i a
    rw [assign_fst_cons]
    refine (List.forall_cons _ _ _).mpr ⟨?_, ih _ _⟩
    constructor
    · show gapOk (positionedCar track leader i a c).timing.interval
      simp only [positionedCar]
      split_ifs
      · exact calculate_gap_gapOk c a track.length
      · trivial
    · show gapOk (positionedCar track leader i a c).timing.gap_to_leader
      simp only [positionedCar]
      split_ifs
      · exact calculate_gap_gapOk c leader track.length
      · trivial

/-- C10: `calculate_gap_to_car_ahead` is total: it returns positive
infinity when there is no car ahead, or when the car ahead's total
distance is not strictly greater than the car's own; otherwise it
returns the strictly positive finite value `distance_difference ÷
(max(speed, 100) km/h in m/s)`.  The divisor is bounded below by
100 km/h in m/s, and every `interval`/`gap_to_leader` field the
recomputation publishes is absent, infinite, or strictly positive —
never negative. -/
theorem calculate_gap_spec (car a : Car) (L : ℚ) (cars : List Car)
    (track : Track) (old : List (String × Nat)) (tk lap : Nat) :
    calculate_gap_to_car_ahead car none L = .inf ∧
    ((calculate_gap_to_car_ahead car (some a) L = .inf) ↔
      carTotalDistance a L ≤ carTotalDistance car L) ∧
    (carTotalDistance a L ≤ carTotalDistance car L ∨
      (calculate_gap_to_car_ahead car (some a) L =
        .fin ((carTotalDistance a L - carTotalDistance car L) /
          (max car.telemetry.speed 100 * 1000 / 3600)) ∧
       0 < (carTotalDistance a L - carTotalDistance car L) /
          (max car.telemetry.speed 100 * 1000 / 3600))) ∧
    ((100 : ℚ) * 1000 / 3600 ≤ max car.telemetry.speed 100 * 1000 / 3600) ∧
    ((recalculate_positions cars track old tk lap).1.Forall fun c =>
      gapOk c.timing.interval ∧ gapOk c.timing.gap_to_leader) := by
  have key : calculate_gap_to_car_ahead car (some a) L =
      (if carTotalDistance a L - carTotalDistance car L ≤ 0 then QInf.inf
       else .fin ((carTotalDistance a L - carTotalDistance car L) /
         (max car.telemetry.speed 100 * 1000 / 3600))) := rfl
  have hden : (0 : ℚ) < max car.telemetry.speed 100 * 1000 / 3600 := by
    apply div_pos
    · apply mul_pos
      · have := le_max_right car.telemetry.speed (100 : ℚ)
        linarith
      · norm_num
    · norm_num
  refine ⟨rfl, ?_, ?_, ?_, ?_⟩
  · rw [key]
    by_cases h : carTotalDistance a L - carTotalDistance car L ≤ 0
    · simp [h]
      linarith
    · simp [h]
      linarith [not_le.mp h]
  · by_cases h : carTotalDistance a L ≤ carTotalDistance car L
    · exact Or.inl h
    · refine Or.inr ⟨?_, ?_⟩
      · rw [key]
        have h0 : ¬ carTotalDistance a L - carTotalDistance car L ≤ 0 := by
          intro hc; exact h (by linarith)
        simp [h0]
      · exact div_pos (by linarith [not_le.mp h]) hden
  · gcongr
    exact le_max_right _ _
  · unfold recalculate_positions
    exact assign_gapOk track (sortCarsByProgress cars).head? old tk lap
      (sortCarsByProgress cars) 0 none

/-!  ## C4 — safety-car duration

The per-car loop can change race control only through the DNF
escalation branch, which requires race control to currently be GREEN.
Hence while the safety car is out it stays out, and after the release
check turns it GREEN the only way it is not GREEN at the end of the
tick is a fresh same-tick redeployment (with its SAFETY_CAR event). -/

/-- The pit-or-drive branch never touches race control or the
deployment lap. -/
theorem carStepDrive_rc_deploy (predict : Car → Bool → Bool → Bool)
    (track : Track) (oldCars : List Car) (sc vsc : Bool) (clap ntick : Nat)
    (ls : LoopState) (car : Car) (rng1 : SeededRNG) :
    (carStepDrive predict track oldCars sc vsc clap ntick ls car rng1).rc = ls.rc ∧
    (carStepDrive predict track oldCars sc vsc clap ntick ls car rng1).deploy = ls.deploy := by
  simp only [carStepDrive]
  repeat' split
  all_goals simp

/-- Outside GREEN, the DNF branch never touches race control or the
deployment lap. -/
theorem carStepDnf_rc_deploy_of_ne_green (clap ntick : Nat) (ls : LoopState)
    (car uc : Car) (ev : Event) (rng1 : SeededRNG) (h : ls.rc ≠ .GREEN) :
    (carStepDnf clap ntick ls car uc ev rng1).rc = ls.rc ∧
    (carStepDnf clap ntick ls car uc ev rng1).deploy = ls.deploy := by
  simp [carStepDnf, if_neg h]

/-- Outside GREEN, one loop iteration never touches race control or the
deployment lap. -/
theorem carStep_rc_deploy_of_ne_green (predict : Car → Bool → Bool → Bool)
    (track : Track) (oldCars : List Car) (sc vsc : Bool) (clap ntick : Nat)
    (ls : LoopState) (car : Car) (h : ls.rc ≠ .GREEN) :
    (carStep predict track oldCars sc vsc clap ntick ls car).rc = ls.rc ∧
    (carStep predict track oldCars sc vsc clap ntick ls car).deploy = ls.deploy := by
  simp only [carStep]
  split
  · exact ⟨rfl, rfl⟩
  · split
    · exact carStepDnf_rc_deploy_of_ne_green _ _ _ _ _ _ _ h
    · exact carStepDrive_rc_deploy _ _ _ _ _ _ _ _ _ _

/-- Outside GREEN, the whole loop never touches race control or the
deployment lap. -/
theorem loop_rc_deploy_of_ne_green (predict : Car → Bool → Bool → Bool)
    (track : Track) (oldCars : List Car) (sc vsc : Bool) (clap ntick : Nat) :
    ∀ (cars : List Car) (ls : LoopState), ls.rc ≠ .GREEN →
      ((cars.foldl (carStep predict track oldCars sc vsc clap ntick) ls).rc = ls.rc ∧
       (cars.foldl (carStep predict track oldCars sc vsc clap ntick) ls).deploy = ls.deploy) := by
  intro cars
  induction cars with
  | nil => intro ls h; exact ⟨rfl, rfl⟩
  | cons c cars ih =>
    intro ls h
    have hstep := carStep_rc_deploy_of_ne_green predict track oldCars sc vsc
      clap ntick ls c h
    have hne : (carStep predict track oldCars sc vsc clap ntick ls c).rc ≠ .GREEN := by
      rw [hstep.1]; exact h
    have := ih (carStep predict track oldCars sc vsc clap ntick ls c) hne
    simp only [List.foldl_cons]
    exact ⟨this.1.trans hstep.1, this.2.trans hstep.2⟩

/-- Every branch of the loop only appends to the event log. -/
theorem carStep_events_mono (predict : Car → Bool → Bool → Bool)
    (track : Track) (oldCars : List Car) (sc vsc : Bool) (clap ntick : Nat)
    (ls : LoopState) (car : Car) :
    ∃ t, (carStep predict track oldCars sc vsc clap ntick ls car).events =
      ls.events ++ t := by
  simp only [carStep, carStepDnf, carStepDrive]
  repeat' split
  all_goals first
    | exact ⟨_, rfl⟩
    | exact ⟨[], (List.append_nil _).symm⟩

/-- What one tick's loop can deliver after the release check has set
GREEN with no deployment lap: either it is still GREEN and clear, or a
fresh DNF escalated to a new safety car deployed at the current leader
lap, with a SAFETY_CAR event stamped with this tick. -/
def scOutcome (clap ntick : Nat) (ls : LoopState) : Prop :=
  (ls.rc = .GREEN ∧ ls.deploy = none) ∨
  (ls.rc = .SAFETY_CAR ∧ ls.deploy = some clap ∧
    ∃ e ∈ ls.events, e.event_type = .SAFETY_CAR ∧ e.tick = ntick)

/-- One loop iteration preserves `scOutcome`. -/
theorem carStep_scOutcome (predict : Car → Bool → Bool → Bool)
    (track : Track) (oldCars : List Car) (sc vsc : Bool) (clap ntick : Nat)
    (ls : LoopState) (car : Car) (h : scOutcome clap ntick ls) :
    scOutcome clap ntick (carStep predict track oldCars sc vsc clap ntick ls car) := by
  rcases h with ⟨hg, hd⟩ | ⟨hsc, hd, e, he, het, hek⟩
  · simp only [carStep]
    split
    · exact Or.inl ⟨hg, hd⟩
    · split
      · simp only [carStepDnf, if_pos hg]
        split
        · refine Or.inr ⟨rfl, rfl,
            ⟨{ tick := ntick
               lap := car.timing.lap
               event_type := .SAFETY_CAR
               driver := none
               payload := .scCause car.identity.driver
               description := "Safety Car deployed for " ++ car.identity.driver },
             ?_, rfl, rfl⟩⟩
          simp
        · exact Or.inl ⟨hg, hd⟩
      · have := carStepDrive_rc_deploy predict track oldCars sc vsc clap ntick
          ls car (check_for_dnf car ls.rng ntick).2
        exact Or.inl ⟨this.1.trans hg, this.2.trans hd⟩
  · have hne : ls.rc ≠ .GREEN := by rw [hsc]; intro hcon; cases hcon
    have hrc := carStep_rc_deploy_of_ne_green predict track oldCars sc vsc
      clap ntick ls car hne
    obtain ⟨t, ht⟩ := carStep_events_mono predict track oldCars sc vsc clap
      ntick ls car
    refine Or.inr ⟨hrc.1.trans hsc, hrc.2.trans hd, e, ?_, het, hek⟩
    rw [ht]
    exact List.mem_append_left _ he

/-- The whole loop preserves `scOutcome`. -/
theorem loop_scOutcome (predict : Car → Bool → Bool → Bool)
    (track : Track) (oldCars : List Car) (sc vsc : Bool) (clap ntick : Nat) :
    ∀ (cars : List Car) (ls : LoopState), scOutcome clap ntick ls →
      scOutcome clap ntick
        (cars.foldl (carStep predict track oldCars sc vsc clap ntick) ls) := by
  intro cars
  induction cars with
  | nil => intro ls h; exact h
  | cons c cars ih =>
    intro ls h
    simp only [List.foldl_cons]
    exact ih _ (carStep_scOutcome predict track oldCars sc vsc clap ntick ls c h)

/-- While the loop starts under a safety car it ends under the same
safety car with the same deployment lap. -/
theorem loop_keeps_sc (predict : Car → Bool → Bool → Bool) (track : Track)
    (oldCars : List Car) (sc vsc : Bool) (clap ntick L : Nat)
    (cars : List Car) (ls0 : LoopState)
    (h1 : ls0.rc = .SAFETY_CAR) (h2 : ls0.deploy = some L) :
    (cars.foldl (carStep predict track oldCars sc vsc clap ntick) ls0).rc =
      .SAFETY_CAR ∧
    (cars.foldl (carStep predict track oldCars sc vsc clap ntick) ls0).deploy =
      some L := by
  have h := loop_rc_deploy_of_ne_green predict track oldCars sc vsc clap ntick
    cars ls0 (by rw [h1]; intro hcon; cases hcon)
  exact ⟨h.1.trans h1, h.2.trans h2⟩

/-- Starting the loop under GREEN with no deployment, the tick ends
GREEN-and-clear or freshly redeployed with a stamped SAFETY_CAR event
(still present after the post-loop event appends). -/
theorem loop_green_outcome (predict : Car → Bool → Bool → Bool)
    (track : Track) (oldCars : List Car) (sc vsc : Bool) (clap ntick : Nat)
    (cars : List Car) (ls0 : LoopState) (post1 post2 : List Event)
    (h1 : ls0.rc = .GREEN) (h2 : ls0.deploy = none) :
    ((cars.foldl (carStep predict track oldCars sc vsc clap ntick) ls0).rc =
        .GREEN ∧
      (cars.foldl (carStep predict track oldCars sc vsc clap ntick) ls0).deploy =
        none) ∨
    ((cars.foldl (carStep predict track oldCars sc vsc clap ntick) ls0).rc =
        .SAFETY_CAR ∧
      (cars.foldl (carStep predict track oldCars sc vsc clap ntick) ls0).deploy =
        some clap ∧
      ∃ e ∈ ((cars.foldl (carStep predict track oldCars sc vsc clap ntick)
          ls0).events ++ post1) ++ post2,
        e.event_type = .SAFETY_CAR ∧ e.tick = ntick) := by
  rcases loop_scOutcome predict track oldCars sc vsc clap ntick cars ls0
      (Or.inl ⟨h1, h2⟩) with ⟨a, b⟩ | ⟨a, b, e, he, het, hek⟩
  · exact Or.inl ⟨a, b⟩
  · exact Or.inr ⟨a, b, e,
      List.mem_append_left _ (List.mem_append_left _ he), het, hek⟩

/-- C4 amended: once race control is SAFETY_CAR with `sc_deploy_lap = L`,
every tick taken while the racing leader's lap is below `L + 3` keeps
race control SAFETY_CAR with the deployment lap unchanged.  On the
first tick where the leader's lap reaches `L + 3` the release check
reverts race control to GREEN and clears `sc_deploy_lap` — never
earlier — unless a DNF incident in that same tick redeploys the safety
car, in which case the tick ends SAFETY_CAR again with a fresh
deployment lap (the current leader lap) and a SAFETY_CAR event stamped
with this tick. -/
theorem sc_duration_spec (predict : Car → Bool → Bool → Bool)
    (state : RaceState) (rng : SeededRNG)
    (cmds : List (String × String)) (L : Nat)
    (hsc : state.race_control = .SAFETY_CAR)
    (hdep : state.sc_deploy_lap = some L) :
    (leaderLap state.cars < L + SC_LAPS_DURATION →
      (tick predict state rng cmds).1.race_control = .SAFETY_CAR ∧
      (tick predict state rng cmds).1.sc_deploy_lap = some L) ∧
    (L + SC_LAPS_DURATION ≤ leaderLap state.cars →
      ((tick predict state rng cmds).1.race_control = .GREEN ∧
        (tick predict state rng cmds).1.sc_deploy_lap = none) ∨
      ((tick predict state rng cmds).1.race_control = .SAFETY_CAR ∧
        (tick predict state rng cmds).1.sc_deploy_lap = some (leaderLap state.cars) ∧
        ∃ e ∈ (tick predict state rng cmds).1.events,
          e.event_type = .SAFETY_CAR ∧ e.tick = state.meta.tick + 1)) := by
  constructor
  · intro hlt
    have hnge : ¬ leaderLap state.cars ≥ L + SC_LAPS_DURATION := by omega
    have hrel : scRelease state.race_control state.sc_deploy_lap
        (leaderLap state.cars) = (.SAFETY_CAR, some L) := by
      simp [scRelease, hsc, hdep, hnge]
    simp only [tick, hrel]
    exact loop_keeps_sc _ _ _ _ _ _ _ _ _ _ rfl rfl
  · intro hge
    have hrel : scRelease state.race_control state.sc_deploy_lap
        (leaderLap state.cars) = (.GREEN, none) := by
      simp [scRelease, hsc, hdep, hge]
    simp only [tick, hrel]
    exact loop_green_outcome _ _ _ _ _ _ _ _ _ _ _ rfl rfl

/-- C4 witness: a quiet safety-car tick (leader on lap 1, deployed at
lap 0) keeps the safety car out with the deployment lap unchanged. -/
theorem sc_duration_spec_witness :
    (tick predictNever (mkState [mkCar "VER" 1 1 (1/2) .RACING] .SAFETY_CAR
        (some 0)) rngHalf []).1.race_control = .SAFETY_CAR ∧
    (tick predictNever (mkState [mkCar "VER" 1 1 (1/2) .RACING] .SAFETY_CAR
        (some 0)) rngHalf []).1.sc_deploy_lap = some 0 :=
  (sc_duration_spec predictNever
      (mkState [mkCar "VER" 1 1 (1/2) .RACING] .SAFETY_CAR (some 0))
      rngHalf [] 0 rfl rfl).1 (by with_unfolding_all decide)

/-- An RNG stream that misses the weather drift, then triggers a
mechanical failure and its safety-car escalation. -/
def streamC4x : Nat → ℚ := fun n =>
  if n = 0 then 1/2 else if n ≤ 2 then 0 else 1/2

/-- A lone racing leader on lap 3 under a safety car deployed at lap 0:
the release condition `3 ≥ 0 + 3` holds this tick. -/
def stC4x : RaceState :=
  mkState [mkCar "VER" 1 3 (1/2) .RACING] .SAFETY_CAR (some 0)

/-- C4 counterexample: on the first tick with leader lap `≥ L + 3` the
claim requires race control to revert to GREEN with `sc_deploy_lap`
cleared, but a DNF in that same tick can redeploy the safety car: here
the tick ends with race control SAFETY_CAR and `sc_deploy_lap = some 3`
although the release condition held. -/
theorem sc_not_green_after_release_tick :
    stC4x.race_control = .SAFETY_CAR ∧
    stC4x.sc_deploy_lap = some 0 ∧
    leaderLap stC4x.cars = 3 ∧
    (tick predictNever stC4x ⟨streamC4x, 0⟩ []).1.race_control = .SAFETY_CAR ∧
    (tick predictNever stC4x ⟨streamC4x, 0⟩ []).1.sc_deploy_lap = some 3 := by
  with_unfolding_all decide

/-!  ## C6 — first-lap completion

`update_car` records a lap time only when `lap_start_tick > 0`
(engine.py:520); for a race started at `lap_start_tick = 0` the first
lap completion increments `lap` but records no time, and the engine
emits a LAP_COMPLETE event only when a time was recorded
(engine.py:207), so no LAP_COMPLETE appears for the first lap. -/

/-- A car that has no recorded lap time and whose lap started at tick 0
still has no recorded lap time after its physics update. -/
theorem update_car_last_none (car : Car) (track : Track) (rng : SeededRNG)
    (sc vsc : Bool) (gap : QInf) (llap ctick : Nat) (cmd : Option String)
    (h1 : car.timing.last_lap_time = none)
    (h2 : car.timing.lap_start_tick = 0) :
    (update_car car track rng sc vsc gap llap ctick cmd).1.timing.last_lap_time =
      none := by
  have hlc : ∀ p : ℚ, (lapCompletion car.timing p ctick).2.2.1 = none := by
    intro p
    simp only [lapCompletion]
    split
    · simp [h2, h1]
    · exact h1
  by_cases hst : car.status ≠ CarStatus.RACING
  · simp only [update_car, if_pos hst]
    exact h1
  · simp only [update_car, if_neg hst]
    exact hlc _

/-- A pit stop does not touch the timing record. -/
theorem execute_pit_stop_timing (car : Car) (rng : SeededRNG) (tk : Nat)
    (sc vsc : Bool) :
    (execute_pit_stop car rng tk sc vsc).1.1.timing = car.timing := rfl

/-- A DNF check does not touch the timing record. -/
theorem check_for_dnf_timing (car : Car) (rng : SeededRNG) (tk : Nat) :
    (check_for_dnf car rng tk).1.1.timing = car.timing := by
  simp only [check_for_dnf]
  repeat' split
  all_goals rfl

/-- Any event produced by the DNF check is a DNF event. -/
theorem check_for_dnf_event_type (car : Car) (rng : SeededRNG) (tk : Nat) :
    ∀ e, (check_for_dnf car rng tk).1.2 = some e → e.event_type = .DNF := by
  intro e he
  simp only [check_for_dnf] at he
  repeat' split at he
  all_goals cases he
  all_goals rfl

/-- No LAP_COMPLETE event is emitted for a car without a recorded lap
time. -/
theorem lapCompleteEvents_none (ntick olap : Nat) (uc : Car)
    (h : uc.timing.last_lap_time = none) :
    lapCompleteEvents ntick olap uc = [] := by
  simp [lapCompleteEvents, h]

/-- The pit-or-drive branch, on a car with no recorded lap time and
`lap_start_tick = 0`, appends one car that still has no recorded lap
time, and appends no LAP_COMPLETE event. -/
theorem carStepDrive_c6 (predict : Car → Bool → Bool → Bool) (track : Track)
    (oldCars : List Car) (sc vsc : Bool) (clap ntick : Nat)
    (ls : LoopState) (car : Car) (rng1 : SeededRNG)
    (h1 : car.timing.last_lap_time = none)
    (h2 : car.timing.lap_start_tick = 0) :
    ∃ (uc : Car) (t : List Event),
      (carStepDrive predict track oldCars sc vsc clap ntick ls car rng1).cars =
        ls.cars ++ [uc] ∧
      uc.timing.last_lap_time = none ∧
      (carStepDrive predict track oldCars sc vsc clap ntick ls car rng1).events =
        ls.events ++ t ∧
      ∀ e ∈ t, e.event_type ≠ .LAP_COMPLETE := by
  simp only [carStepDrive]
  repeat' split
  all_goals refine ⟨_, _, rfl, ?_, rfl, ?_⟩
  all_goals first
    | (rw [execute_pit_stop_timing]; exact h1)
    | (exact update_car_last_none _ _ _ _ _ _ _ _ _ h1 h2)
    | (rw [lapCompleteEvents_none _ _ _
        (update_car_last_none _ _ _ _ _ _ _ _ _ h1 h2)]
       intro e he
       cases he)
    | (intro e he
       rcases List.mem_cons.mp he with rfl | hx
       · rw [show (execute_pit_stop car _ ntick sc vsc).1.2.event_type =
           EventType.PIT_STOP from rfl]
         intro hcon
         cases hcon
       · cases hx)

/-- One loop iteration on a car with no recorded lap time and
`lap_start_tick = 0` appends one car that still has no recorded lap
time, and appends no LAP_COMPLETE event. -/
theorem carStep_c6 (predict : Car → Bool → Bool → Bool) (track : Track)
    (oldCars : List Car) (sc vsc : Bool) (clap ntick : Nat)
    (ls : LoopState) (car : Car)
    (h1 : car.timing.last_lap_time = none)
    (h2 : car.timing.lap_start_tick = 0) :
    ∃ (uc : Car) (t : List Event),
      (carStep predict track oldCars sc vsc clap ntick ls car).cars =
        ls.cars ++ [uc] ∧
      uc.timing.last_lap_time = none ∧
      (carStep predict track oldCars sc vsc clap ntick ls car).events =
        ls.events ++ t ∧
      ∀ e ∈ t, e.event_type ≠ .LAP_COMPLETE := by
  simp only [carStep]
  split
  · exact ⟨car, [], rfl, h1, (List.append_nil _).symm, by simp⟩
  · split
    next ev heq =>
      have htm := check_for_dnf_timing car ls.rng ntick
      have hty := check_for_dnf_event_type car ls.rng ntick ev heq
      have hucl : (check_for_dnf car ls.rng ntick).1.1.timing.last_lap_time = none := by
        rw [htm]; exact h1
      simp only [carStepDnf]
      split
      · split
        · exact ⟨_, [ev, _], rfl, hucl, rfl, by
            intro e he
            rcases List.mem_cons.mp he with rfl | he2
            · rw [hty]; intro hcon; cases hcon
            · rcases List.mem_cons.mp he2 with rfl | he3
              · intro hcon; cases hcon
              · cases he3⟩
        · exact ⟨_, [ev], rfl, hucl, rfl, by
            intro e he
            rcases List.mem_cons.mp he with rfl | he2
            · rw [hty]; intro hcon; cases hcon
            · cases he2⟩
      · exact ⟨_, [ev], rfl, hucl, rfl, by
          intro e he
          rcases List.mem_cons.mp he with rfl | he2
          · rw [hty]; intro hcon; cases hcon
          · cases he2⟩
    next heq =>
      exact carStepDrive_c6 predict track oldCars sc vsc clap ntick ls car
        (check_for_dnf car ls.rng ntick).2 h1 h2

/-- The whole loop, over a roster with no recorded lap times and all
laps started at tick 0, yields cars with no recorded lap times and
appends no LAP_COMPLETE event beyond the given base log. -/
theorem loop_c6 (predict : Car → Bool → Bool → Bool) (track : Track)
    (oldCars : List Car) (sc vsc : Bool) (clap ntick : Nat)
    (base : List Event) :
    ∀ (cars : List Car) (ls : LoopState),
      (∀ c ∈ cars, c.timing.last_lap_time = none ∧
        c.timing.lap_start_tick = 0) →
      (∀ c ∈ ls.cars, c.timing.last_lap_time = none) →
      (∀ e ∈ ls.events, e.event_type = .LAP_COMPLETE → e ∈ base) →
      ((∀ c ∈ (cars.foldl (carStep predict track oldCars sc vsc clap ntick)
          ls).cars, c.timing.last_lap_time = none) ∧
       (∀ e ∈ (cars.foldl (carStep predict track oldCars sc vsc clap ntick)
          ls).events, e.event_type = .LAP_COMPLETE → e ∈ base)) := by
  intro cars
  induction cars with
  | nil => intro ls hcars hc he; exact ⟨hc, he⟩
  | cons car cars ih =>
    intro ls hcars hc he
    obtain ⟨uc, t, hcs, hul, hes, ht⟩ :=
      carStep_c6 predict track oldCars sc vsc clap ntick ls car
        (hcars car (by simp)).1 (hcars car (by simp)).2
    simp only [List.foldl_cons]
    refine ih _ (fun c hcmem => hcars c (by simp [hcmem])) ?_ ?_
    · intro c hcmem
      rw [hcs] at hcmem
      rcases List.mem_append.mp hcmem with hin | hone
      · exact hc c hin
      · rcases List.mem_cons.mp hone with rfl | hx
        · exact hul
        · cases hx
    · intro e hemem hty
      rw [hes] at hemem
      rcases List.mem_append.mp hemem with hin | hnew
      · exact he e hin hty
      · exact absurd hty (ht e hnew)

/-- `assignPositions` does not change the recorded lap times along the
roster. -/
theorem assign_map_last (track : Track) (leader : Option Car)
    (old : List (String × Nat)) (tk lap : Nat) :
    ∀ (l : List Car) (i : Nat) (a : Option Car),
      ((assignPositions track leader old tk lap l i a).1.map
        fun c => c.timing.last_lap_time) =
      l.map fun c => c.timing.last_lap_time := by
  intro l
  induction l with
  | nil => intro i a; rfl
  | cons c l ih =>
    intro i a
    rw [assign_fst_cons]
    simp [positionedCar, ih]

/-- Any overtake event emitted by the recomputation is an OVERTAKE. -/
theorem overtakeEventFor_type (old : List (String × Nat))
    (tk lap np : Nat) (c : Car) :
    ∀ e, overtakeEventFor old tk lap np c = some e →
      e.event_type = .OVERTAKE := by
  intro e he
  simp only [overtakeEventFor] at he
  repeat' split at he
  all_goals cases he
  all_goals rfl

/-- All events of `assignPositions` are OVERTAKE events. -/
theorem assign_events_overtake (track : Track) (leader : Option Car)
    (old : List (String × Nat)) (tk lap : Nat) :
    ∀ (l : List Car) (i : Nat) (a : Option Car),
      ∀ e ∈ (assignPositions track leader old tk lap l i a).2,
        e.event_type = .OVERTAKE := by
  intro l
  induction l with
  | nil => intro i a e he; cases he
  | cons c l ih =>
    intro i a e he
    rw [assign_snd_cons] at he
    rcases List.mem_append.mp he with hin | hrest
    · rcases ho : overtakeEventFor old tk lap (i + 1) c with - | ev
      · rw [ho] at hin; cases hin
      · rw [ho] at hin
        rcases List.mem_cons.mp hin with rfl | hx
        · exact overtakeEventFor_type old tk lap (i + 1) c e ho
        · cases hx
    · exact ih (i + 1) (some c) e hrest

/-- The fastest-lap sweep emits nothing when no car has a recorded lap
time. -/
theorem fastestLapEvents_none (ntick : Nat) (cars : List Car)
    (h : ∀ c ∈ cars, c.timing.last_lap_time = none) :
    fastestLapEvents ntick cars = [] := by
  unfold fastestLapEvents
  rw [List.filterMap_eq_nil_iff]
  intro c hc
  simp [h c hc]

/-- The weather block only appends WEATHER_CHANGE events. -/
theorem weatherStep_events (state : RaceState) (ntick : Nat)
    (rng1 : SeededRNG) (drift : Bool) :
    ∃ t, (weatherStep state ntick rng1 drift).2.1 = state.events ++ t ∧
      ∀ e ∈ t, e.event_type = .WEATHER_CHANGE := by
  simp only [weatherStep]
  repeat' split
  all_goals first
    | exact ⟨[], (List.append_nil _).symm, by simp⟩
    | refine ⟨_, rfl, ?_⟩
  all_goals intro e he
  all_goals rcases List.mem_cons.mp he with rfl | hx
  all_goals first
    | rfl
    | cases hx

/-- C6 amended: for a race whose cars all have `lap_start_tick = 0` and
no recorded lap time (the freshly started race), one engine tick leaves
every car without a recorded lap time and appends no LAP_COMPLETE event
— in particular, when the leader first completes a lap (its `lap`
becomes 1), `last_lap_time` stays `None` and no LAP_COMPLETE event is
logged: lap times are only recorded once `lap_start_tick > 0`, i.e.
from the second completed lap onward. -/
theorem first_lap_records_no_time (predict : Car → Bool → Bool → Bool)
    (state : RaceState) (rng : SeededRNG) (cmds : List (String × String))
    (h : ∀ c ∈ state.cars, c.timing.last_lap_time = none ∧
      c.timing.lap_start_tick = 0) :
    (∀ c ∈ (tick predict state rng cmds).1.cars,
      c.timing.last_lap_time = none) ∧
    (∀ e ∈ (tick predict state rng cmds).1.events,
      e.event_type = .LAP_COMPLETE → e ∈ state.events) := by
  obtain ⟨tw, htw, htwty⟩ := weatherStep_events state (state.meta.tick + 1)
    (rng.chance WEATHER_DRIFT_CHANCE).2 (rng.chance WEATHER_DRIFT_CHANCE).1
  have hbase : ∀ e ∈ (weatherStep state (state.meta.tick + 1)
      (rng.chance WEATHER_DRIFT_CHANCE).2
      (rng.chance WEATHER_DRIFT_CHANCE).1).2.1,
      e.event_type = .LAP_COMPLETE → e ∈ state.events := by
    intro e he hty
    rw [htw] at he
    rcases List.mem_append.mp he with hin | hnew
    · exact hin
    · rw [htwty e hnew] at hty
      cases hty
  have hloop := loop_c6 predict state.track state.cars
    (decide (state.race_control = RaceControl.SAFETY_CAR))
    (decide (state.race_control = RaceControl.VSC))
    (leaderLap state.cars) (state.meta.tick + 1) state.events state.cars
    { rng := (weatherStep state (state.meta.tick + 1)
        (rng.chance WEATHER_DRIFT_CHANCE).2
        (rng.chance WEATHER_DRIFT_CHANCE).1).2.2
      cmds := cmds
      rc := (scRelease state.race_control state.sc_deploy_lap
        (leaderLap state.cars)).1
      deploy := (scRelease state.race_control state.sc_deploy_lap
        (leaderLap state.cars)).2
      cars := []
      events := (weatherStep state (state.meta.tick + 1)
        (rng.chance WEATHER_DRIFT_CHANCE).2
        (rng.chance WEATHER_DRIFT_CHANCE).1).2.1 }
    h (by intro c hc; cases hc) hbase
  have hcars_out : ∀ c ∈ (tick predict state rng cmds).1.cars,
      c.timing.last_lap_time = none := by
    intro c hc
    have hmap : c.timing.last_lap_time ∈
        ((tick predict state rng cmds).1.cars.map
          fun c => c.timing.last_lap_time) :=
      List.mem_map_of_mem _ hc
    simp only [tick] at hmap
    rw [show ((recalculate_positions _ state.track _ (state.meta.tick + 1)
        (leaderLap state.cars)).1.map fun c => c.timing.last_lap_time) =
        _ from assign_map_last state.track _ _ (state.meta.tick + 1)
          (leaderLap state.cars) _ 0 none] at hmap
    obtain ⟨c0, hc0, hceq⟩ := List.mem_map.mp hmap
    have hc0mem : c0 ∈ (List.foldl (carStep predict state.track state.cars
        (decide (state.race_control = RaceControl.SAFETY_CAR))
        (decide (state.race_control = RaceControl.VSC))
        (leaderLap state.cars) (state.meta.tick + 1))
        { rng := (weatherStep state (state.meta.tick + 1)
            (rng.chance WEATHER_DRIFT_CHANCE).2
            (rng.chance WEATHER_DRIFT_CHANCE).1).2.2
          cmds := cmds
          rc := (scRelease state.race_control state.sc_deploy_lap
            (leaderLap state.cars)).1
          deploy := (scRelease state.race_control state.sc_deploy_lap
            (leaderLap state.cars)).2
          cars := []
          events := (weatherStep state (state.meta.tick + 1)
            (rng.chance WEATHER_DRIFT_CHANCE).2
            (rng.chance WEATHER_DRIFT_CHANCE).1).2.1 } state.cars).cars :=
      (sortCarsByProgress_perm _).mem_iff.mp hc0
    rw [← hceq]
    exact hloop.1 c0 hc0mem
  refine ⟨hcars_out, ?_⟩
  intro e he hty
  simp only [tick] at he
  rcases List.mem_append.mp he with he1 | hfl
  · rcases List.mem_append.mp he1 with he2 | hot
    · exact hloop.2 e he2 hty
    · rw [show e.event_type = .OVERTAKE from
        assign_events_overtake state.track _ _ (state.meta.tick + 1)
          (leaderLap state.cars) _ 0 none e hot] at hty
      cases hty
  · rw [fastestLapEvents_none _ _ (by
      intro c hc
      exact hcars_out c (by simp only [tick]; exact hc))] at hfl
    cases hfl

/-- A freshly started one-car race on the short demo track: lap 0,
progress 0, no recorded lap time, `lap_start_tick = 0`. -/
def stC6 : RaceState := mkState [mkCar "VER" 1 0 0 .RACING] .GREEN none

/-- C6 counterexample: on the demo track the leader's `lap_progress`
first reaches 1.0 on tick 1 (`lap` becomes 1), but `last_lap_time`
remains `None` — not `ticks_elapsed × 0.1 s` — and no LAP_COMPLETE
event is appended, because `update_car` only records a lap time when
`lap_start_tick > 0` and the LAP_COMPLETE emission requires a recorded
time. -/
theorem first_lap_time_missing :
    (stC6.cars.map fun c =>
      (c.timing.lap, c.timing.lap_start_tick, c.timing.last_lap_time,
        c.telemetry.lap_progress)) = [(0, 0, none, 0)] ∧
    ((tick predictNever stC6 rngHalf []).1.cars.map fun c =>
      (c.timing.lap, c.timing.lap_start_tick)) = [(1, 1)] ∧
    ((tick predictNever stC6 rngHalf []).1.cars.map fun c =>
      c.timing.last_lap_time) = [none] ∧
    ((tick predictNever stC6 rngHalf []).1.events.filter fun e =>
      e.event_type = .LAP_COMPLETE) = [] := by
  with_unfolding_all decide

/-- C6 witness: the amended statement applied to the freshly started
one-car race. -/
theorem first_lap_records_no_time_witness :
    (∀ c ∈ (tick predictNever stC6 rngHalf []).1.cars,
      c.timing.last_lap_time = none) ∧
    (∀ e ∈ (tick predictNever stC6 rngHalf []).1.events,
      e.event_type = .LAP_COMPLETE → e ∈ stC6.events) :=
  first_lap_records_no_time predictNever stC6 rngHalf []
    (by with_unfolding_all decide)

/-!  ## C3 — overtake events

The loop in `recalculate_positions` emits the overtake event for the
car landing at sorted index `j` exactly from `overtakeEventFor` at slot
`j + 1`; the lemmas below characterise membership in its two outputs by
sorted index, then the main theorem proves the existence iff under the
well-formedness of the previous tick's position dictionary. -/

/-- Events of `assignPositions`, characterised by sorted index. -/
theorem assign_mem_events (track : Track) (leader : Option Car)
    (old : List (String × Nat)) (tk lap : Nat) :
    ∀ (l : List Car) (i : Nat) (a : Option Car) (e : Event),
      e ∈ (assignPositions track leader old tk lap l i a).2 ↔
        ∃ j, ∃ hj : j < l.length,
          overtakeEventFor old tk lap (i + j + 1) l[j] = some e := by
  intro l
  induction l with
  | nil =>
    intro i a e
    constructor
    · intro he; cases he
    · rintro ⟨j, hj, -⟩; cases hj
  | cons c l ih =>
    intro i a e
    rw [assign_snd_cons]
    constructor
    · intro he
      rcases List.mem_append.mp he with hin | hrest
      · refine ⟨0, by simp, ?_⟩
        rcases ho : overtakeEventFor old tk lap (i + 1) c with - | ev
        · rw [ho] at hin; cases hin
        · rw [ho] at hin
          rcases List.mem_cons.mp hin with rfl | hx
          · exact ho
          · cases hx
      · obtain ⟨j, hj, hev⟩ := (ih (i + 1) (some c) e).mp hrest
        refine ⟨j + 1, by simpa using hj, ?_⟩
        have harith : i + (j + 1) + 1 = i + 1 + j + 1 := by omega
        rw [harith]
        simpa using hev
    · rintro ⟨j, hj, hev⟩
      cases j with
      | zero =>
        apply List.mem_append_left
        simp only [Nat.add_zero] at hev
        rw [show (c :: l)[0] = c from rfl] at hev
        rw [hev]
        simp
      | succ j =>
        apply List.mem_append_right
        refine (ih (i + 1) (some c) e).mpr ⟨j, by simpa using hj, ?_⟩
        have harith : i + 1 + j + 1 = i + (j + 1) + 1 := by omega
        rw [harith]
        simpa using hev

/-- Every car in the output of `assignPositions` keeps the identity and
status of the sorted car at its index and carries position `index + 1`. -/
theorem assign_mem_cars (track : Track) (leader : Option Car)
    (old : List (String × Nat)) (tk lap : Nat) :
    ∀ (l : List Car) (i : Nat) (a : Option Car),
      ∀ c ∈ (assignPositions track leader old tk lap l i a).1,
        ∃ j, ∃ hj : j < l.length,
          c.identity = l[j].identity ∧ c.status = l[j].status ∧
          c.timing.position = i + j + 1 := by
  intro l
  induction l with
  | nil => intro i a c hc; cases hc
  | cons x l ih =>
    intro i a c hc
    rw [assign_fst_cons] at hc
    rcases List.mem_cons.mp hc with rfl | hrest
    · exact ⟨0, by simp, by simp [positionedCar], by simp [positionedCar],
        by simp [positionedCar]⟩
    · obtain ⟨j, hj, hid, hst, hp⟩ := ih (i + 1) (some x) c hrest
      refine ⟨j + 1, by simpa using hj, by simpa using hid,
        by simpa using hst, ?_⟩
      rw [hp]
      omega

/-- Conversely, every sorted index is realised by an output car. -/
theorem assign_car_at_index (track : Track) (leader : Option Car)
    (old : List (String × Nat)) (tk lap : Nat) :
    ∀ (l : List Car) (i : Nat) (a : Option Car) (j : Nat) (hj : j < l.length),
      ∃ c ∈ (assignPositions track leader old tk lap l i a).1,
        c.identity = l[j].identity ∧ c.status = l[j].status ∧
        c.timing.position = i + j + 1 := by
  intro l
  induction l with
  | nil => intro i a j hj; cases hj
  | cons x l ih =>
    intro i a j hj
    rw [assign_fst_cons]
    cases j with
    | zero =>
      exact ⟨positionedCar track leader i a x, by simp,
        by simp [positionedCar], by simp [positionedCar],
        by simp [positionedCar]⟩
    | succ j =>
      obtain ⟨c, hc, hid, hst, hp⟩ := ih (i + 1) (some x) j (by simpa using hj)
      refine ⟨c, List.mem_cons_of_mem _ hc, by simpa using hid,
        by simpa using hst, ?_⟩
      rw [hp]
      omega

/-- Anatomy of an emitted overtake event: the previous position of the
car was strictly worse, the car is RACING, a previous holder of the new
slot was found, and the event names overtaker and holder. -/
theorem overtakeEventFor_spec (old : List (String × Nat))
    (tk lap np : Nat) (c : Car) (e : Event)
    (he : overtakeEventFor old tk lap np c = some e) :
    ∃ p q, dictGet old c.identity.driver = some p ∧ np < p ∧
      c.status = .RACING ∧
      old.find? (fun kv => decide (kv.2 = np) &&
        decide (kv.1 ≠ c.identity.driver)) = some q ∧
      q.1 ≠ "" ∧
      e.driver = some c.identity.driver ∧ e.event_type = .OVERTAKE ∧
      e.payload = .overtake c.identity.driver q.1 np := by
  rcases hget : dictGet old c.identity.driver with - | p
  · simp only [overtakeEventFor, hget] at he
    cases he
  · simp only [overtakeEventFor, hget] at he
    by_cases hcond : np < p ∧ c.status = .RACING
    · rw [if_pos hcond] at he
      rcases hfind : old.find? (fun kv => decide (kv.2 = np) &&
          decide (kv.1 ≠ c.identity.driver)) with - | q
      · simp only [hfind] at he
        cases he
      · simp only [hfind] at he
        by_cases hq : q.1 ≠ ""
        · rw [if_pos hq] at he
          cases he
          exact ⟨p, q, rfl, hcond.1, hcond.2, hfind, hq, rfl, rfl, rfl⟩
        · rw [if_neg hq] at he
          cases he
    · rw [if_neg hcond] at he
      cases he

/-- Conversely, those conditions force the overtake event. -/
theorem overtakeEventFor_some (old : List (String × Nat))
    (tk lap np : Nat) (c : Car) (p : Nat) (q : String × Nat)
    (hget : dictGet old c.identity.driver = some p) (hlt : np < p)
    (hst : c.status = .RACING)
    (hfind : old.find? (fun kv => decide (kv.2 = np) &&
      decide (kv.1 ≠ c.identity.driver)) = some q)
    (hq : q.1 ≠ "") :
    overtakeEventFor old tk lap np c =
      some { tick := tk
             lap := lap
             event_type := .OVERTAKE
             driver := some c.identity.driver
             payload := .overtake c.identity.driver q.1 np
             description := c.identity.driver ++ " overtakes " ++ q.1 } := by
  simp only [overtakeEventFor, hget, hfind]
  rw [if_pos ⟨hlt, hst⟩, if_pos hq]

/-- In a unique-keyed dictionary, every binding is what `get`
returns. -/
theorem dictGet_eq_of_mem (old : List (String × Nat))
    (hkeys : (old.map Prod.fst).Nodup) (kv : String × Nat)
    (hmem : kv ∈ old) : dictGet old kv.1 = some kv.2 := by
  induction old with
  | nil => cases hmem
  | cons hd tl ih =>
    rcases List.mem_cons.mp hmem with rfl | htl
    · simp [dictGet, List.find?]
    · have hne : ¬ (hd.1 = kv.1) := by
        intro hcon
        have : kv.1 ∈ tl.map Prod.fst := List.mem_map_of_mem _ htl
        rw [← hcon] at this
        exact (List.nodup_cons.mp hkeys).1 this
      have htl2 := ih (List.nodup_cons.mp hkeys).2 htl
      simp only [dictGet, List.find?] at htl2 ⊢
      rw [show (decide (hd.1 = kv.1)) = false by simpa using hne]
      exact htl2

/-- The previous holder of a slot `np ∈ 1..n` exists and differs from a
driver whose previous position was strictly worse than `np`. -/
theorem find_holder (old : List (String × Nat)) (D : String) (n np p : Nat)
    (hkeys : (old.map Prod.fst).Nodup)
    (hperm : (old.map Prod.snd).Perm (List.range' 1 n))
    (hnp : 1 ≤ np) (hnp2 : np < 1 + n)
    (hget : dictGet old D = some p) (hlt : np < p) :
    ∃ q, old.find? (fun kv => decide (kv.2 = np) &&
      decide (kv.1 ≠ D)) = some q ∧ q.2 = np ∧ q.1 ≠ D := by
  have hmem : np ∈ old.map Prod.snd := by
    rw [hperm.mem_iff, List.mem_range'_1]
    exact ⟨hnp, hnp2⟩
  obtain ⟨kv, hkv, hkv2⟩ := List.mem_map.mp hmem
  have hkvD : kv.1 ≠ D := by
    intro hcon
    have := dictGet_eq_of_mem old hkeys kv hkv
    rw [hcon, hget] at this
    have hpkv : p = kv.2 := Option.some.inj this
    omega
  have hsome : (old.find? (fun kv => decide (kv.2 = np) &&
      decide (kv.1 ≠ D))).isSome := by
    rw [List.find?_isSome]
    exact ⟨kv, hkv, by simp [hkv2, hkvD]⟩
  obtain ⟨q, hq⟩ := Option.isSome_iff_exists.mp hsome
  have hqprop := List.find?_some hq
  simp only [Bool.and_eq_true, decide_eq_true_eq] at hqprop
  exact ⟨q, hq, hqprop.1, hqprop.2⟩

/-- C3: assuming a well-formed previous tick (distinct driver names,
unique non-empty keys in the old position dictionary, and old positions
forming a permutation of `1..n`), an OVERTAKE event for driver `D`
exists in the recomputation's event output iff `D`'s car is RACING and
its new position strictly improves on its old one; each such event
names the overtaker and the driver who held that slot on the previous
tick; and a DNF car never appears as the overtaker. -/
theorem overtake_events_spec (cars : List Car) (track : Track)
    (old : List (String × Nat)) (tk lap : Nat)
    (h1 : (cars.map fun c => c.identity.driver).Nodup)
    (h2 : (old.map Prod.fst).Nodup)
    (h3 : (old.map Prod.snd).Perm (List.range' 1 cars.length))
    (h5 : ∀ kv ∈ old, kv.1 ≠ "") :
    (∀ D : String,
      (∃ e ∈ (recalculate_positions cars track old tk lap).2,
        e.event_type = .OVERTAKE ∧ e.driver = some D) ↔
      (∃ c ∈ (recalculate_positions cars track old tk lap).1,
        c.identity.driver = D ∧ c.status = .RACING ∧
        ∃ p, dictGet old D = some p ∧ c.timing.position < p)) ∧
    (∀ e ∈ (recalculate_positions cars track old tk lap).2,
      ∃ c ∈ (recalculate_positions cars track old tk lap).1, ∃ q ∈ old,
        e.event_type = .OVERTAKE ∧ e.driver = some c.identity.driver ∧
        c.status = .RACING ∧
        e.payload = .overtake c.identity.driver q.1 c.timing.position ∧
        q.2 = c.timing.position ∧ q.1 ≠ c.identity.driver) ∧
    (∀ e ∈ (recalculate_positions cars track old tk lap).2,
      ∀ c ∈ (recalculate_positions cars track old tk lap).1,
        e.driver = some c.identity.driver → c.status ≠ .DNF) := by
  unfold recalculate_positions
  set sorted := sortCarsByProgress cars with hsorted
  have hperm : sorted.Perm cars := sortCarsByProgress_perm cars
  have hlen : sorted.length = cars.length := hperm.length_eq
  have hnodup : (sorted.map fun c => c.identity.driver).Nodup :=
    ((hperm.map fun c => c.identity.driver).nodup_iff).mpr h1
  have hinj : ∀ (j1 j2 : Nat) (hj1 : j1 < sorted.length)
      (hj2 : j2 < sorted.length),
      sorted[j1].identity.driver = sorted[j2].identity.driver → j1 = j2 := by
    intro j1 j2 hj1 hj2 heq
    have hi := List.nodup_iff_injective_get.mp hnodup
    have hj1m : j1 < (sorted.map fun c => c.identity.driver).length := by
      simpa using hj1
    have hj2m : j2 < (sorted.map fun c => c.identity.driver).length := by
      simpa using hj2
    have hgeq : (sorted.map fun c => c.identity.driver).get ⟨j1, hj1m⟩ =
        (sorted.map fun c => c.identity.driver).get ⟨j2, hj2m⟩ := by
      simp only [List.get_eq_getElem, List.getElem_map]
      exact heq
    exact congrArg Fin.val (hi hgeq)
  refine ⟨?_, ?_, ?_⟩
  · intro D
    constructor
    · rintro ⟨e, he, hty, hdr⟩
      obtain ⟨j, hj, hev⟩ :=
        (assign_mem_events track sorted.head? old tk lap sorted 0 none e).mp he
      obtain ⟨p, q, hget, hlt, hst, hfind, hq, hedr, hety, hepay⟩ :=
        overtakeEventFor_spec old tk lap (0 + j + 1) sorted[j] e hev
      have hD : sorted[j].identity.driver = D := by
        rw [hedr] at hdr
        exact Option.some.inj hdr
      obtain ⟨c, hc, hcid, hcst, hcp⟩ :=
        assign_car_at_index track sorted.head? old tk lap sorted 0 none j hj
      refine ⟨c, hc, ?_, ?_, p, ?_, ?_⟩
      · rw [show c.identity.driver = sorted[j].identity.driver from
          congrArg CarIdentity.driver hcid]
        exact hD
      · rw [hcst]
        exact hst
      · rw [← hD]
        exact hget
      · rw [hcp]
        exact hlt
    · rintro ⟨c, hc, hcD, hcst, p, hget, hlt⟩
      obtain ⟨j, hj, hcid, hcst2, hcp⟩ :=
        assign_mem_cars track sorted.head? old tk lap sorted 0 none c hc
      have hjD : sorted[j].identity.driver = D := by
        rw [← hcD]
        exact (congrArg CarIdentity.driver hcid).symm
      have hltj : 0 + j + 1 < p := by
        rw [hcp] at hlt
        exact hlt
      obtain ⟨q, hfind, hq2, hqD⟩ := find_holder old D cars.length (0 + j + 1)
        p h2 h3 (by omega) (by rw [← hlen]; omega) hget hltj
      have hq1ne : q.1 ≠ "" := h5 q (List.mem_of_find?_eq_some hfind)
      have hfind2 : old.find? (fun kv => decide (kv.2 = (0 + j + 1)) &&
          decide (kv.1 ≠ sorted[j].identity.driver)) = some q := by
        rw [hjD]
        exact hfind
      have hget2 : dictGet old sorted[j].identity.driver = some p := by
        rw [hjD]
        exact hget
      have hst2 : sorted[j].status = .RACING := by
        rw [← hcst2]
        exact hcst
      have hev := overtakeEventFor_some old tk lap (0 + j + 1) sorted[j] p q
        hget2 hltj hst2 hfind2 hq1ne
      exact ⟨_, (assign_mem_events track sorted.head? old tk lap sorted 0
        none _).mpr ⟨j, hj, hev⟩, rfl, congrArg some hjD⟩
  · intro e he
    obtain ⟨j, hj, hev⟩ :=
      (assign_mem_events track sorted.head? old tk lap sorted 0 none e).mp he
    obtain ⟨p, q, hget, hlt, hst, hfind, hq, hedr, hety, hepay⟩ :=
      overtakeEventFor_spec old tk lap (0 + j + 1) sorted[j] e hev
    obtain ⟨c, hc, hcid, hcst, hcp⟩ :=
      assign_car_at_index track sorted.head? old tk lap sorted 0 none j hj
    have hdrv : c.identity.driver = sorted[j].identity.driver :=
      congrArg CarIdentity.driver hcid
    have hqmem := List.mem_of_find?_eq_some hfind
    have hqprops := List.find?_some hfind
    simp only [Bool.and_eq_true, decide_eq_true_eq] at hqprops
    refine ⟨c, hc, q, hqmem, hety, ?_, ?_, ?_, ?_, ?_⟩
    · rw [hedr, hdrv]
    · rw [hcst]
      exact hst
    · rw [hepay, hdrv, hcp]
    · rw [hcp]
      exact hqprops.1
    · rw [hdrv]
      exact hqprops.2
  · intro e he c hc hdr
    obtain ⟨j, hj, hev⟩ :=
      (assign_mem_events track sorted.head? old tk lap sorted 0 none e).mp he
    obtain ⟨p, q, hget, hlt, hst, hfind, hq, hedr, hety, hepay⟩ :=
      overtakeEventFor_spec old tk lap (0 + j + 1) sorted[j] e hev
    obtain ⟨j2, hj2, hcid, hcst, hcp⟩ :=
      assign_mem_cars track sorted.head? old tk lap sorted 0 none c hc
    have hdrv : sorted[j].identity.driver = sorted[j2].identity.driver := by
      have h1j : sorted[j].identity.driver = c.identity.driver :=
        Option.some.inj (hedr.symm.trans hdr)
      rw [h1j]
      exact congrArg CarIdentity.driver hcid
    have hj12 : j = j2 := hinj j j2 hj hj2 hdrv
    subst hj12
    intro hcon
    rw [hcst] at hcon
    rw [hst] at hcon
    cases hcon

/-- First car of the C3 witness roster: previously P1, now behind. -/
def c3CarA : Car := mkCar "VER" 1 3 (2/5) .RACING

/-- Second car of the C3 witness roster: previously P2, now ahead. -/
def c3CarB : Car := mkCar "HAM" 2 3 (3/5) .RACING

/-- C3 witness: the overtake characterisation applied to a two-car
roster in which HAM has just passed VER. -/
theorem overtake_events_spec_witness :
    (∀ D : String,
      (∃ e ∈ (recalculate_positions [c3CarA, c3CarB] demoTrack
          [("VER", 1), ("HAM", 2)] 100 3).2,
        e.event_type = .OVERTAKE ∧ e.driver = some D) ↔
      (∃ c ∈ (recalculate_positions [c3CarA, c3CarB] demoTrack
          [("VER", 1), ("HAM", 2)] 100 3).1,
        c.identity.driver = D ∧ c.status = .RACING ∧
        ∃ p, dictGet [("VER", 1), ("HAM", 2)] D = some p ∧
          c.timing.position < p)) ∧
    (∀ e ∈ (recalculate_positions [c3CarA, c3CarB] demoTrack
        [("VER", 1), ("HAM", 2)] 100 3).2,
      ∃ c ∈ (recalculate_positions [c3CarA, c3CarB] demoTrack
          [("VER", 1), ("HAM", 2)] 100 3).1,
        ∃ q ∈ [("VER", 1), ("HAM", 2)],
        e.event_type = .OVERTAKE ∧ e.driver = some c.identity.driver ∧
        c.status = .RACING ∧
        e.payload = .overtake c.identity.driver q.1 c.timing.position ∧
        q.2 = c.timing.position ∧ q.1 ≠ c.identity.driver) ∧
    (∀ e ∈ (recalculate_positions [c3CarA, c3CarB] demoTrack
        [("VER", 1), ("HAM", 2)] 100 3).2,
      ∀ c ∈ (recalculate_positions [c3CarA, c3CarB] demoTrack
          [("VER", 1), ("HAM", 2)] 100 3).1,
        e.driver = some c.identity.driver → c.status ≠ .DNF) :=
  overtake_events_spec [c3CarA, c3CarB] demoTrack [("VER", 1), ("HAM", 2)]
    100 3 (by with_unfolding_all decide) (by with_unfolding_all decide)
    (by with_unfolding_all decide) (by with_unfolding_all decide)

end BoxBox
